import Mathlib

/-!
Verification of the RUBRIX assignment-evaluator core (`app.py`):
the evaluation-request/response contract and the report-rendering pipeline.

Python values flowing between `json.loads`, the route handlers and the PDF
renderer are embedded as the inductive `PyVal`; `json.loads` / `json.dumps`
are embedded as `json_loads` / `json_dumps`; Python `str.strip`, slicing and
`in` are embedded as list operations on `String.data`.
-/

namespace Rubrix

/-- Left and right brace characters, used when building JSON text. -/
def lbrace : Char := '\x7b'

def rbrace : Char := '\x7d'

/-- Python values as produced by `json.loads` and consumed by the renderer:
strings, integers, floats (kept as their source lexeme, since no claim
computes with them), booleans, lists, dicts (insertion-ordered association
lists) and `None`/`null`. -/
inductive PyVal where
  | str (s : String)
  | int (n : Int)
  | float (lexeme : String)
  | bool (b : Bool)
  | list (xs : List PyVal)
  | dict (kvs : List (String × PyVal))
  | none

/-- Lookup in an insertion-ordered dict body; Python dicts never hold
duplicate keys (insert overwrites in place), so first match is the value. -/
def assocGet (k : String) : List (String × PyVal) → Option PyVal
  | [] => Option.none
  | (k', v) :: rest => if k' = k then some v else assocGet k rest

/-- Insert into a dict body the way Python dict assignment does: overwrite
in place if the key exists, append otherwise. -/
def dictInsert (kvs : List (String × PyVal)) (k : String) (v : PyVal) :
    List (String × PyVal) :=
  match kvs with
  | [] => [(k, v)]
  | (k', v') :: rest =>
    if k' = k then (k', v) :: rest else (k', v') :: dictInsert rest k v

/-- JSON whitespace accepted by Python's `json` scanner. -/
def jsonWs (c : Char) : Bool :=
  c = ' ' || c = '\t' || c = '\n' || c = '\r'

def skipWs (l : List Char) : List Char := l.dropWhile jsonWs

def hexDigit (c : Char) : Option Nat :=
  if '0' ≤ c ∧ c ≤ '9' then some (c.toNat - 48)
  else if 'a' ≤ c ∧ c ≤ 'f' then some (c.toNat - 87)
  else if 'A' ≤ c ∧ c ≤ 'F' then some (c.toNat - 55)
  else Option.none

/-- Tail-recursive list length, so that evaluating fuel bounds inside the
kernel iterates instead of recursing. -/
def listLen (l : List α) : Nat := go 0 l
where
  go : Nat → List α → Nat
    | acc, [] => acc
    | acc, _ :: rest => go (acc + 1) rest

/-- String-body scanner of the JSON decoder: consumes characters after the
opening quote up to and including the closing quote, decoding the escape
sequences Python's `json` accepts, and rejecting raw control characters
(the `strict=True` default of `json.loads`).  The accumulator holds the
decoded characters in reverse. -/
def parseJStr : Nat → List Char → List Char → Option (List Char × List Char)
  | 0, _, _ => Option.none
  | _, _, [] => Option.none
  | fuel + 1, acc, c :: rest =>
    if c = '"' then some (acc.reverse, rest)
    else if c = '\\' then
      match rest with
      | [] => Option.none
      | e :: r =>
        if e = '"' then parseJStr fuel ('"' :: acc) r
        else if e = '\\' then parseJStr fuel ('\\' :: acc) r
        else if e = '/' then parseJStr fuel ('/' :: acc) r
        else if e = 'b' then parseJStr fuel ('\x08' :: acc) r
        else if e = 'f' then parseJStr fuel ('\x0c' :: acc) r
        else if e = 'n' then parseJStr fuel ('\n' :: acc) r
        else if e = 'r' then parseJStr fuel ('\r' :: acc) r
        else if e = 't' then parseJStr fuel ('\t' :: acc) r
        else if e = 'u' then
          match r with
          | a :: b :: c' :: d :: r' =>
            match hexDigit a, hexDigit b, hexDigit c', hexDigit d with
            | some ha, some hb, some hc, some hd =>
              parseJStr fuel (Char.ofNat (ha * 4096 + hb * 256 + hc * 16 + hd) :: acc) r'
            | _, _, _, _ => Option.none
          | _ => Option.none
        else Option.none
    else if c.toNat < 32 then Option.none
    else parseJStr fuel (c :: acc) rest

def isDig (c : Char) : Bool := '0' ≤ c && c ≤ '9'

def natOfDigits (ds : List Char) : Nat :=
  ds.foldl (fun acc c => acc * 10 + (c.toNat - 48)) 0

/-- Fractional part of a JSON number lexeme ('.' followed by digits), or
nothing if the input does not start with '.'. -/
def parseFracPart (l : List Char) : Option (List Char × List Char) :=
  match l with
  | c :: r =>
    if c = '.' then
      let fs := r.takeWhile isDig
      if fs.isEmpty then Option.none else some ('.' :: fs, r.dropWhile isDig)
    else some ([], l)
  | [] => some ([], l)

/-- Exponent part of a JSON number lexeme, or nothing if absent. -/
def parseExpPart (l : List Char) : Option (List Char × List Char) :=
  match l with
  | c :: r =>
    if c = 'e' ∨ c = 'E' then
      let (sgn, r1) :=
        match r with
        | s :: r' => if s = '+' ∨ s = '-' then ([s], r') else (([] : List Char), r)
        | [] => ([], r)
      let es := r1.takeWhile isDig
      if es.isEmpty then Option.none
      else some (c :: (sgn ++ es), r1.dropWhile isDig)
    else some ([], l)
  | [] => some ([], l)

/-- Number scanner of the JSON decoder: an integer lexeme yields a Python
`int`, any fractional/exponent part yields a Python `float` (kept as its
lexeme). -/
def parseJNum (l : List Char) : Option (PyVal × List Char) :=
  let (neg, l1) :=
    match l with
    | c :: r => if c = '-' then (true, r) else (false, l)
    | [] => (false, l)
  let ds := l1.takeWhile isDig
  if ds.isEmpty then Option.none
  else do
    let l2 := l1.dropWhile isDig
    let (f, l3) ← parseFracPart l2
    let (e, l4) ← parseExpPart l3
    if f.isEmpty ∧ e.isEmpty then
      some (.int (if neg then -(natOfDigits ds : Int) else (natOfDigits ds : Int)), l4)
    else
      some (.float ⟨(if neg then ['-'] else []) ++ ds ++ f ++ e⟩, l4)

mutual

/-- Value scanner of the JSON decoder (`json.loads` grammar, including the
non-standard `NaN`/`Infinity`/`-Infinity` constants Python accepts by
default).  Fuel bounds the nesting/iteration depth; `json_loads` supplies
more fuel than any input can consume. -/
def parseJVal : Nat → List Char → Option (PyVal × List Char)
  | 0, _ => Option.none
  | fuel + 1, l =>
    match skipWs l with
    | [] => Option.none
    | c :: r =>
      if c = '"' then (parseJStr (listLen r + 1) [] r).map fun p => (.str ⟨p.1⟩, p.2)
      else if c = lbrace then parseJObj fuel [] r
      else if c = '[' then parseJArr fuel r
      else
        match c :: r with
        | 't' :: 'r' :: 'u' :: 'e' :: rest => some (.bool true, rest)
        | 'f' :: 'a' :: 'l' :: 's' :: 'e' :: rest => some (.bool false, rest)
        | 'n' :: 'u' :: 'l' :: 'l' :: rest => some (.none, rest)
        | 'N' :: 'a' :: 'N' :: rest => some (.float "NaN", rest)
        | 'I' :: 'n' :: 'f' :: 'i' :: 'n' :: 'i' :: 't' :: 'y' :: rest =>
          some (.float "Infinity", rest)
        | '-' :: 'I' :: 'n' :: 'f' :: 'i' :: 'n' :: 'i' :: 't' :: 'y' :: rest =>
          some (.float "-Infinity", rest)
        | l' => parseJNum l'

/-- Array scanner, entered just after '['. -/
def parseJArr (fuel : Nat) (l : List Char) : Option (PyVal × List Char) :=
  match fuel with
  | 0 => Option.none
  | fuel + 1 =>
    match skipWs l with
    | c :: r =>
      if c = ']' then some (.list [], r)
      else
        match parseJVal fuel l with
        | some (v, rest) => parseJArrTail fuel [v] rest
        | Option.none => Option.none
    | [] => Option.none

/-- Array continuation: after one element, expects ',' or ']'. -/
def parseJArrTail (fuel : Nat) (acc : List PyVal) (l : List Char) :
    Option (PyVal × List Char) :=
  match fuel with
  | 0 => Option.none
  | fuel + 1 =>
    match skipWs l with
    | c :: r =>
      if c = ']' then some (.list acc.reverse, r)
      else if c = ',' then
        match parseJVal fuel r with
        | some (v, rest) => parseJArrTail fuel (v :: acc) rest
        | Option.none => Option.none
      else Option.none
    | [] => Option.none

/-- Object scanner, entered just after the opening brace. -/
def parseJObj (fuel : Nat) (acc : List (String × PyVal)) (l : List Char) :
    Option (PyVal × List Char) :=
  match fuel with
  | 0 => Option.none
  | fuel + 1 =>
    match skipWs l with
    | c :: r =>
      if c = rbrace then
        if acc.isEmpty then some (.dict [], r) else Option.none
      else if c = '"' then
        match parseJStr (listLen r + 1) [] r with
        | some (ks, r1) =>
          match skipWs r1 with
          | c2 :: r2 =>
            if c2 = ':' then
              match parseJVal fuel r2 with
              | some (v, r3) => parseJObjTail fuel (dictInsert acc ⟨ks⟩ v) r3
              | Option.none => Option.none
            else Option.none
          | [] => Option.none
        | Option.none => Option.none
      else Option.none
    | [] => Option.none

/-- Object continuation: after one member, expects ',' or the closing
brace. -/
def parseJObjTail (fuel : Nat) (acc : List (String × PyVal)) (l : List Char) :
    Option (PyVal × List Char) :=
  match fuel with
  | 0 => Option.none
  | fuel + 1 =>
    match skipWs l with
    | c :: r =>
      if c = rbrace then some (.dict acc, r)
      else if c = ',' then
        match skipWs r with
        | c2 :: r2 =>
          if c2 = '"' then
            match parseJStr (listLen r2 + 1) [] r2 with
            | some (ks, r3) =>
              match skipWs r3 with
              | c3 :: r4 =>
                if c3 = ':' then
                  match parseJVal fuel r4 with
                  | some (v, r5) => parseJObjTail fuel (dictInsert acc ⟨ks⟩ v) r5
                  | Option.none => Option.none
                else Option.none
              | [] => Option.none
            | Option.none => Option.none
          else Option.none
        | [] => Option.none
      else Option.none
    | [] => Option.none

end

/-- Embedding of Python's `json.loads`: decodes one JSON value and requires
only whitespace after it, otherwise fails ("Extra data"). -/
def json_loads (s : String) : Option PyVal :=
  match parseJVal (listLen s.data + 1) s.data with
  | some (v, rest) => if (skipWs rest).isEmpty then some v else Option.none
  | Option.none => Option.none

/-- Hexadecimal digit character for a value below 16. -/
def hexChar (n : Nat) : Char :=
  if n < 10 then Char.ofNat (48 + n) else Char.ofNat (87 + n)

/-- Escape one character the way `json.dumps` (with its `ensure_ascii`
default) does. -/
def dumpsEscape (c : Char) : List Char :=
  if c = '"' then ['\\', '"']
  else if c = '\\' then ['\\', '\\']
  else if c = '\n' then ['\\', 'n']
  else if c = '\t' then ['\\', 't']
  else if c = '\r' then ['\\', 'r']
  else if c = '\x08' then ['\\', 'b']
  else if c = '\x0c' then ['\\', 'f']
  else if c.toNat < 32 ∨ 126 < c.toNat then
    ['\\', 'u', hexChar (c.toNat / 4096 % 16), hexChar (c.toNat / 256 % 16),
      hexChar (c.toNat / 16 % 16), hexChar (c.toNat % 16)]
  else [c]

def dumpsStr (s : String) : List Char :=
  '"' :: (s.data.flatMap dumpsEscape ++ ['"'])

mutual

/-- Embedding of Python's `json.dumps` with its default separators
`", "` and `": "`. -/
def json_dumps : PyVal → List Char
  | .str s => dumpsStr s
  | .int n => (toString n).data
  | .float lexeme => lexeme.data
  | .bool b => if b then "true".data else "false".data
  | .none => "null".data
  | .list xs => '[' :: (dumpsItems xs ++ [']'])
  | .dict kvs => lbrace :: (dumpsMembers kvs ++ [rbrace])

/-- List items of `json_dumps`, separated by `", "`. -/
def dumpsItems : List PyVal → List Char
  | [] => []
  | [x] => json_dumps x
  | x :: y :: xs => json_dumps x ++ ',' :: ' ' :: dumpsItems (y :: xs)

/-- Dict members of `json_dumps`: `"key": value`, separated by `", "`. -/
def dumpsMembers : List (String × PyVal) → List Char
  | [] => []
  | [(k, v)] => dumpsStr k ++ ':' :: ' ' :: json_dumps v
  | (k, v) :: m :: kvs =>
    dumpsStr k ++ ':' :: ' ' :: json_dumps v ++ ',' :: ' ' :: dumpsMembers (m :: kvs)

end

/-- String form of `json.dumps`. -/
def json_dumps_str (v : PyVal) : String := ⟨json_dumps v⟩

mutual

/-- Boolean equality on `PyVal` (the derived `DecidableEq` is unavailable
for this nested inductive). -/
def pyBeq : PyVal → PyVal → Bool
  | .str a, .str b => a = b
  | .int a, .int b => a = b
  | .float a, .float b => a = b
  | .bool a, .bool b => a = b
  | .list a, .list b => pyBeqList a b
  | .dict a, .dict b => pyBeqDict a b
  | .none, .none => true
  | _, _ => false

def pyBeqList : List PyVal → List PyVal → Bool
  | [], [] => true
  | a :: as, b :: bs => pyBeq a b && pyBeqList as bs
  | _, _ => false

def pyBeqDict : List (String × PyVal) → List (String × PyVal) → Bool
  | [], [] => true
  | (k, a) :: as, (k', b) :: bs => k = k' && pyBeq a b && pyBeqDict as bs
  | _, _ => false

end

mutual

/-- Soundness of `pyBeq`: boolean equality implies propositional equality. -/
theorem pyBeq_eq : ∀ {a b : PyVal}, pyBeq a b = true → a = b
  | .str _, .str _, h => by
    simp only [pyBeq, decide_eq_true_eq] at h; rw [h]
  | .int _, .int _, h => by
    simp only [pyBeq, decide_eq_true_eq] at h; rw [h]
  | .float _, .float _, h => by
    simp only [pyBeq, decide_eq_true_eq] at h; rw [h]
  | .bool _, .bool _, h => by
    simp only [pyBeq, decide_eq_true_eq] at h; rw [h]
  | .list _, .list _, h => by
    simp only [pyBeq] at h; rw [pyBeqList_eq h]
  | .dict _, .dict _, h => by
    simp only [pyBeq] at h; rw [pyBeqDict_eq h]
  | .none, .none, _ => rfl

theorem pyBeqList_eq : ∀ {as bs : List PyVal}, pyBeqList as bs = true → as = bs
  | [], [], _ => rfl
  | a :: as, b :: bs, h => by
    simp only [pyBeqList, Bool.and_eq_true] at h
    rw [pyBeq_eq h.1, pyBeqList_eq h.2]

theorem pyBeqDict_eq :
    ∀ {as bs : List (String × PyVal)}, pyBeqDict as bs = true → as = bs
  | [], [], _ => rfl
  | (k, a) :: as, (k', b) :: bs, h => by
    simp only [pyBeqDict, Bool.and_eq_true, decide_eq_true_eq] at h
    rw [h.1.1, pyBeq_eq h.1.2, pyBeqDict_eq h.2]

end

/-- Boolean test that a string JSON-decodes to exactly the given value;
`loads_of_loadsBackEq` recovers the propositional statement. -/
def loadsBackEq (s : String) (v : PyVal) : Bool :=
  match json_loads s with
  | some w => pyBeq w v
  | Option.none => false

theorem loads_of_loadsBackEq {s : String} {v : PyVal}
    (h : loadsBackEq s v = true) : json_loads s = some v := by
  unfold loadsBackEq at h
  cases hl : json_loads s with
  | none => rw [hl] at h; exact absurd h (by simp)
  | some w => rw [hl] at h; rw [pyBeq_eq h]

/-! ## Python string primitives used by the Evaluation Client and renderer -/

/-- Whitespace stripped by Python's `str.strip()` (the ASCII range; every
string these claims quantify over is compared through the same predicate on
both sides). -/
def pyIsSpace (c : Char) : Bool :=
  c = ' ' || c = '\t' || c = '\n' || c = '\r' || c = '\x0b' || c = '\x0c'

def lstripL (l : List Char) : List Char := l.dropWhile pyIsSpace

def rstripL (l : List Char) : List Char := (l.reverse.dropWhile pyIsSpace).reverse

def stripL (l : List Char) : List Char := rstripL (lstripL l)

/-- Embedding of Python's `str.strip()`. -/
def pyStrip (s : String) : String := ⟨stripL s.data⟩

/-- Embedding of the Python slice `s[a:-b]` (for positive `a`, `b`). -/
def pySliceDrop (a b : Nat) (s : String) : String :=
  ⟨(s.data.drop a).take (s.data.length - b - a)⟩

def listIsPre : List Char → List Char → Bool
  | [], _ => true
  | _ :: _, [] => false
  | a :: as, b :: bs => a = b && listIsPre as bs

/-- Embedding of Python's `s.startswith(pre)`. -/
def pyStartsWith (pre s : String) : Bool := listIsPre pre.data s.data

def listContainsSub (needle : List Char) : List Char → Bool
  | [] => needle.isEmpty
  | c :: rest => listIsPre needle (c :: rest) || listContainsSub needle rest

/-- Embedding of Python's substring test `needle in hay`. -/
def pyContains (needle hay : String) : Bool := listContainsSub needle.data hay.data

/-- Embedding of Python's `s.upper()` on the ASCII strings it is applied to
(`priority` values). -/
def pyUpper (s : String) : String := ⟨s.data.map Char.toUpper⟩

/-- Embedding of the Python slice `s[:n]`. -/
def pyTake (n : Nat) (s : String) : String := ⟨s.data.take n⟩

/-- Embedding of Python `str()` on the values the renderer interpolates.
Scalars follow CPython exactly; container arguments never reach `str()` in
any rendering this development evaluates, and are approximated by their
JSON text (CPython's `repr` differs in quoting). -/
def pyStr : PyVal → String
  | .str s => s
  | .int n => toString n
  | .float lexeme => lexeme
  | .bool b => if b then "True" else "False"
  | .none => "None"
  | .list xs => json_dumps_str (.list xs)
  | .dict kvs => json_dumps_str (.dict kvs)

/-- Falsity test for a float lexeme: a float is falsy iff its value is zero,
i.e. every mantissa digit is `0`. -/
def floatLexFalsy (lexeme : String) : Bool :=
  (lexeme.data.takeWhile fun c => !(c = 'e' ∨ c = 'E')).all fun c =>
    !isDig c || c = '0'

/-- Embedding of Python truthiness for the values the route handlers and
renderer branch on. -/
def pyTruthy : PyVal → Bool
  | .str s => !s.isEmpty
  | .int n => !(n = 0 : Bool)
  | .float lexeme => floatLexFalsy lexeme = false
  | .bool b => b
  | .list xs => !xs.isEmpty
  | .dict kvs => !kvs.isEmpty
  | .none => false


/-! ## Evaluation Client (`analyze_with_openrouter`, source lines 320-548) -/

/-- Fixed prompt text before the truncated rubric (source lines 324-326). -/
def promptPre : String :=
  "You are an experienced educator and evaluation specialist tasked with rigorous assessment of academic work. Your analysis must be critical, comprehensive, and strictly adhere to the rubric criteria.\n\n**RUBRIC FOR EVALUATION:**\n"

/-- Fixed prompt text between the truncated rubric and the truncated
assignment. -/
def promptMid : String :=
  "\n\n**ASSIGNMENT SUBMISSION TO EVALUATE:**\n"

/-- Fixed prompt text after the truncated assignment: evaluation
directives and the literal JSON format example. -/
def promptSuf : String :=
  "\n\n---\n\n## **EVALUATION INSTRUCTIONS:**\n\n### **1. STRICT ADHERENCE TO RUBRIC:**\n- Evaluate EXCLUSIVELY based on the provided rubric criteria\n- Do NOT introduce external standards or personal preferences\n- Map EVERY piece of feedback directly to specific rubric criteria\n\n### **2. REQUIRED ANALYSIS COMPONENTS:**\n\n#### **A. QUANTITATIVE SCORING:**\n- Score each rubric criterion separately on a scale of 0-100%\n- Provide EXACT percentages, not ranges\n- Calculate weighted overall score if rubric includes weightings\n- Flag ANY criterion where score is below 70% as \"Needs Significant Improvement\"\n\n#### **B. QUALITATIVE FEEDBACK (MUST INCLUDE):**\n- **Strengths Identified:** List 3-5 specific examples where criteria were met/exceeded\n- **Deficiencies Found:** List 5-8 specific, actionable deficiencies with exact evidence from submission\n- **Critical Analysis:** Explain WHY each deficiency constitutes a failure to meet rubric standards\n- **Evidence-Based Assessment:** Include exact quotes/line numbers to support every claim\n\n#### **C. STRUCTURAL ANALYSIS:**\n- **Organization Evaluation:** Assess logical flow, paragraph structure, transitions\n- **Argumentation Analysis:** Evaluate thesis clarity, evidence quality, logical consistency\n- **Technical Components:** Check formatting, citations, length compliance, technical accuracy\n\n#### **D. CRITICAL THINKING ASSESSMENT:**\n- **Depth of Analysis:** Evaluate sophistication of thought, not just surface-level coverage\n- **Originality Assessment:** Check for rote repetition vs. genuine insight\n- **Synthesis Evaluation:** Assess integration of concepts, critical connections made\n\n### **3. REQUIRED FORMAT FOR RESPONSE:**\n\nProvide your analysis as a JSON object with this EXACT structure:\n\x7b\n    \"overall_score\": 85,\n    \"overall_grade\": \"B\",\n    \"criteria_breakdown\": [\n        \x7b\n            \"criterion\": \"Criterion Name\", \n            \"score_percentage\": 80, \n            \"weight\": 25,\n            \"strengths\": [\"Specific strength with evidence\"],\n            \"deficiencies\": [\"Specific deficiency with exact quote\"],\n            \"recommendations\": [\"Concrete action required\"],\n            \"needs_improvement\": true/false\n        \x7d\n    ],\n    \"critical_deficiencies\": [\n        \x7b\n            \"issue\": \"Specific critical issue\",\n            \"evidence\": \"Exact quote/location\",\n            \"priority\": \"high/medium/low\",\n            \"remediation\": \"Step-by-step fix\"\n        \x7d\n    ],\n    \"strengths_to_build\": [\n        \x7b\n            \"strength\": \"Specific strength\",\n            \"evidence\": \"Exact quote/location\",\n            \"reinforcement\": \"How to build on this\"\n        \x7d\n    ],\n    \"structural_analysis\": \x7b\n        \"organization\": \"Detailed assessment\",\n        \"argument_development\": \"Specific evaluation\",\n        \"technical_compliance\": \"Checklist results\"\n    \x7d,\n    \"revision_recommendations\": \x7b\n        \"high_priority\": [\"Exactly what to fix first\"],\n        \"content_improvements\": [\"Specific content changes\"],\n        \"structural_changes\": [\"Required reorganization\"],\n        \"technical_fixes\": [\"Exact formatting fixes\"]\n    \x7d,\n    \"grade_justification\": \"Concise paragraph explaining score\",\n    \"readiness_assessment\": \x7b\n        \"status\": \"Needs Major Revision\",\n        \"estimated_revision_hours\": 5,\n        \"key_barriers\": [\"Fundamental issue 1\", \"Fundamental issue 2\"]\n    \x7d,\n    \"summary\": \"Overall summary with actionable insights\"\n\x7d\n\n### **4. EVALUATION PRINCIPLES TO ENFORCE:**\n\n- **Zero Tolerance for:** Plagiarism indicators, major factual errors, ignoring assignment requirements\n- **High Standards for:** Critical thinking, original analysis, proper academic conventions\n- **Evidence-Required:** Every criticism MUST reference specific submission content\n- **Action-Oriented:** All feedback must enable immediate, concrete improvements\n\n### **5. FINAL REQUIREMENTS:**\n\n- Do NOT give participation trophies or inflated scores\n- Do NOT hesitate to give low scores when warranted by rubric\n- Do NOT provide vague feedback - be brutally specific\n- DO highlight both excellence and failure with equal specificity\n- DO maintain professional, constructive but uncompromising tone\n\n**BEGIN EVALUATION NOW. Be meticulous, critical, and evidence-based in your assessment.**\n"

/-- Embedding of the Prompt Builder of `analyze_with_openrouter` (source
lines 324-433): the f-string embedding `rubric_text[:4000]` and
`assignment_text[:6000]` between the fixed instruction text. -/
def buildPrompt (assignment_text rubric_text : String) : String :=
  promptPre ++ pyTake 4000 rubric_text ++ promptMid ++ pyTake 6000 assignment_text ++ promptSuf

/-- Embedding of the response-cleaning step of `analyze_with_openrouter`
(source lines 459-464): strip, then drop a leading code fence
(```json or ```) together with the final three characters, and strip
again. -/
def cleanResponse (resp : String) : String :=
  let r := pyStrip resp
  if pyStartsWith "```json" r then pyStrip (pySliceDrop 7 3 r)
  else if pyStartsWith "```" r then pyStrip (pySliceDrop 3 3 r)
  else r

/-- Outcome of the single `requests.post` to the provider: a reply body, or
any raised exception (transport error, `raise_for_status` on a non-2xx
response, or timeout), carrying its message. -/
inductive ProviderOutcome where
  | ok (content : String)
  | error (message : String)

/-- Hardcoded fallback verdict of `analyze_with_openrouter` (source lines
471-548), returned `json.dumps`-serialized whenever the provider call
raises. -/
def fallbackVerdict : PyVal := .dict [
  ("overall_score", .int 78),
  ("overall_grade", .str "C+"),
  ("criteria_breakdown", .list [
    .dict [
      ("criterion", .str "Content Quality"),
      ("score_percentage", .int 72),
      ("weight", .int 35),
      ("strengths", .list [.str "Clear thesis statement in introduction", .str "Relevant examples provided"]),
      ("deficiencies", .list [.str "Lacks depth in analysis - only surface level coverage", .str "Missing citations for key claims"]),
      ("recommendations", .list [.str "Add at least 3 scholarly references", .str "Deepen analysis with counterarguments"]),
      ("needs_improvement", .bool true)
    ],
    .dict [
      ("criterion", .str "Organization"),
      ("score_percentage", .int 85),
      ("weight", .int 25),
      ("strengths", .list [.str "Logical paragraph structure", .str "Clear transitions between sections"]),
      ("deficiencies", .list [.str "Conclusion is abrupt and doesn\x27t synthesize main points", .str "Introduction could better preview structure"]),
      ("recommendations", .list [.str "Expand conclusion to summarize key findings", .str "Add roadmap sentence in introduction"]),
      ("needs_improvement", .bool false)
    ],
    .dict [
      ("criterion", .str "Critical Thinking"),
      ("score_percentage", .int 65),
      ("weight", .int 40),
      ("strengths", .list [.str "Identifies main issues in the topic"]),
      ("deficiencies", .list [.str "Fails to analyze underlying assumptions", .str "No synthesis of different perspectives", .str "Superficial evaluation of evidence"]),
      ("recommendations", .list [.str "Question the assumptions behind each argument", .str "Compare and contrast at least 3 different viewpoints", .str "Evaluate the quality of evidence used"]),
      ("needs_improvement", .bool true)
    ]
  ]),
  ("critical_deficiencies", .list [
    .dict [
      ("issue", .str "Lack of critical analysis depth"),
      ("evidence", .str "\"The solution is effective because it helps people.\" (Paragraph 3) - This is descriptive, not analytical"),
      ("priority", .str "high"),
      ("remediation", .str "Replace descriptive statements with analytical questions: Why is it effective? For whom? Under what conditions? Compared to what alternatives?")
    ],
    .dict [
      ("issue", .str "Missing academic citations"),
      ("evidence", .str "No references provided for claims about statistics or established theories"),
      ("priority", .str "high"),
      ("remediation", .str "Add minimum 5 scholarly sources using proper APA/MLA format")
    ]
  ]),
  ("strengths_to_build", .list [
    .dict [
      ("strength", .str "Clear writing style"),
      ("evidence", .str "Sentence structure is varied and readable throughout (e.g., Paragraph 2 uses effective complex sentences)"),
      ("reinforcement", .str "Maintain this clarity while adding analytical depth")
    ],
    .dict [
      ("strength", .str "Logical organization"),
      ("evidence", .str "Each paragraph has clear topic sentences and flows naturally to the next"),
      ("reinforcement", .str "Apply same organizational rigor to argument development")
    ]
  ]),
  ("structural_analysis", .dict [
    ("organization", .str "Good basic structure but lacks sophistication in argument development"),
    ("argument_development", .str "Linear presentation without enough critical engagement or synthesis"),
    ("technical_compliance", .str "Meets basic formatting but lacks citations and proper academic conventions")
  ]),
  ("revision_recommendations", .dict [
    ("high_priority", .list [.str "Add scholarly citations", .str "Deepen critical analysis"]),
    ("content_improvements", .list [.str "Include counterarguments", .str "Add case studies/examples"]),
    ("structural_changes", .list [.str "Expand conclusion", .str "Add literature review section"]),
    ("technical_fixes", .list [.str "Add reference list", .str "Fix formatting inconsistencies"])
  ]),
  ("grade_justification", .str "Score of 78 reflects adequate content presentation but significant deficiencies in critical analysis and academic rigor. While well-organized, the submission lacks the analytical depth and scholarly engagement required for higher grades."),
  ("readiness_assessment", .dict [
    ("status", .str "Needs Major Revision"),
    ("estimated_revision_hours", .int 6),
    ("key_barriers", .list [.str "Insufficient critical engagement", .str "Lack of scholarly references", .str "Superficial analysis"])
  ]),
  ("summary", .str "Adequately organized submission that meets basic requirements but requires substantial improvement in analytical depth, scholarly engagement, and critical thinking to achieve higher standards."),
  ("note", .str "Using simulated analysis (OpenRouter unavailable)")
]

/-- Embedding of `analyze_with_openrouter` (source lines 320-548): builds
the prompt from its two text inputs, performs the single provider call
(whose outcome is a parameter here), and either cleans the reply or falls
back to the serialized hardcoded verdict.  The three option flags of the
Python signature are accepted and ignored, as in the source. -/
def analyze_with_openrouter (assignment_text rubric_text : String)
    (detailed_analysis rewrite_suggestions grade_prediction : Bool)
    (outcome : ProviderOutcome) : String :=
  let _prompt := buildPrompt assignment_text rubric_text
  let _opts := (detailed_analysis, rewrite_suggestions, grade_prediction)
  match outcome with
  | .ok content => cleanResponse content
  | .error _ => json_dumps_str fallbackVerdict


/-! ## Report Renderer (`generate_pdf_report`, source lines 48-318)

The PDF "story" is embedded as a list of items; reportlab styling objects
are reduced to their style tag, spacer dimensions and table rows, which is
everything the claims observe.  Dict bracket access, `len`, iteration over
non-lists and `.upper()` on non-strings can raise in Python, so the
renderer lives in `Except String`. -/

inductive Style where
  | title
  | subtitle
  | heading
  | subheading
  | normal
  deriving DecidableEq

inductive Item where
  | para (text : String) (style : Style)
  | spacer (width height : Nat)
  | pageBreak
  | table (rows : List (String × String))
  deriving DecidableEq

inductive PdfColor where
  | green
  | orange
  | red
  deriving DecidableEq

/-- Hex form of the three reportlab colors the renderer selects
(`colors.green.hexval()` and friends). -/
def PdfColor.hexval : PdfColor → String
  | .green => "0x008000"
  | .orange => "0xffa500"
  | .red => "0xff0000"

/-- Embedding of Python's `d.get(k, default)`: total on dicts, an
`AttributeError` on anything else. -/
def pyGet (v : PyVal) (k : String) (dflt : PyVal) : Except String PyVal :=
  match v with
  | .dict kvs => .ok ((assocGet k kvs).getD dflt)
  | _ => .error "AttributeError: get"

/-- Embedding of Python's `d[k]`: a `KeyError` when absent. -/
def pyBracket (v : PyVal) (k : String) : Except String PyVal :=
  match v with
  | .dict kvs =>
    match assocGet k kvs with
    | some w => .ok w
    | Option.none => .error "KeyError"
  | _ => .error "TypeError: not subscriptable"

/-- Embedding of Python's `len`. -/
def pyLenE : PyVal → Except String Nat
  | .list xs => .ok (listLen xs)
  | .dict kvs => .ok (listLen kvs)
  | .str s => .ok (listLen s.data)
  | _ => .error "TypeError: len"

/-- Embedding of Python iteration (`for x in v`). -/
def pyIter : PyVal → Except String (List PyVal)
  | .list xs => .ok xs
  | .str s => .ok (s.data.map fun c => .str ⟨[c]⟩)
  | _ => .error "TypeError: not iterable"

/-- Embedding of Python's `v.upper()`. -/
def pyUpperE : PyVal → Except String String
  | .str s => .ok (pyUpper s)
  | _ => .error "AttributeError: upper"

/-- Integer view of a value for Python's `>=` against an int literal. -/
def pyAsIntCmp : PyVal → Except String Int
  | .int n => .ok n
  | .bool b => .ok (if b then 1 else 0)
  | _ => .error "TypeError: comparison"

/-- Embedding of Python's `'needle' in v` for the renderer's status test. -/
def pyContainsE (needle : String) : PyVal → Except String Bool
  | .str s => .ok (pyContains needle s)
  | _ => .error "TypeError: in"

/-- Derived qualitative band of the per-criterion breakdown (source lines
181-186): at least 70 is "Good", at least 50 is "Needs Work", below 50 is
"Poor". -/
def performanceBand (score_percentage : Int) : String :=
  if score_percentage ≥ 70 then "Good"
  else if score_percentage ≥ 50 then "Needs Work"
  else "Poor"

/-- Derived severity color of the readiness assessment (source lines
283-288): a status containing "Ready" is green, otherwise containing
"Minor" is orange, anything else is red. -/
def statusColor (status : String) : PdfColor :=
  if pyContains "Ready" status then .green
  else if pyContains "Minor" status then .orange
  else .red

/-- Bullet prefix of every rendered sub-list; the source file carries these
three mojibake characters literally. -/
def bulletPre : String := "‚Ä¢ "

/-- Title block of the story: title, subtitle and the assignment-info table
(source lines 102-135). -/
def titleStory (report_data : PyVal) (nowTs : String) : Except String (List Item) := do
  let assignment ← pyGet report_data "assignment" (.str "N/A")
  let rubric ← pyGet report_data "rubric" (.str "N/A")
  let score ← pyGet report_data "overall_score" (.str "N/A")
  let grade ← pyGet report_data "overall_grade" (.str "N/A")
  let ts ← pyGet report_data "timestamp" (.str nowTs)
  pure [
    .para "RUBRIX Assignment Analysis Report" .title,
    .spacer 1 40,
    .para "AI-Powered Academic Evaluation" .subtitle,
    .spacer 1 40,
    .table [
      ("Assignment:", pyStr assignment),
      ("Rubric:", pyStr rubric),
      ("Overall Score:", pyStr score ++ "/100"),
      ("Overall Grade:", pyStr grade),
      ("Report Generated:", pyStr ts)
    ]
  ]

/-- Executive summary and optional grade justification, ending in the first
page break (source lines 137-146). -/
def summaryStory (report_data : PyVal) : Except String (List Item) := do
  let summary ← pyGet report_data "summary" (.str "No summary available.")
  let gj ← pyGet report_data "grade_justification" PyVal.none
  let gjPart : List Item :=
    if pyTruthy gj then
      [.spacer 1 20, .para "Grade Justification" .heading, .para (pyStr gj) .normal]
    else []
  pure ([.spacer 1 30, .para "Executive Summary" .heading,
    .para (pyStr summary) .normal] ++ gjPart ++ [.pageBreak])

/-- Story of one numbered critical deficiency (loop body of source lines
154-162). -/
def deficiencyStory (p : Nat × PyVal) : Except String (List Item) := do
  let i := p.1
  let deficiency := p.2
  let issue ← pyGet deficiency "issue" (.str "N/A")
  let priority ← pyGet deficiency "priority" PyVal.none
  let evidence ← pyGet deficiency "evidence" PyVal.none
  let remediation ← pyGet deficiency "remediation" PyVal.none
  let priPart ← if pyTruthy priority then do
      let pv ← pyBracket deficiency "priority"
      let ps ← pyUpperE pv
      pure [Item.para ("Priority: " ++ ps) .normal]
    else pure []
  let eviPart ← if pyTruthy evidence then do
      let ev ← pyBracket deficiency "evidence"
      pure [Item.para ("<i>Evidence:</i> \"" ++ pyStr ev ++ "\"") .normal]
    else pure []
  let remPart ← if pyTruthy remediation then do
      let rv ← pyBracket deficiency "remediation"
      pure [Item.para ("<i>How to Fix:</i> " ++ pyStr rv) .normal]
    else pure []
  pure ([Item.para ("<b>" ++ toString i ++ ". " ++ pyStr issue ++ "</b>") .subheading]
    ++ priPart ++ eviPart ++ remPart ++ [Item.spacer 1 15])

/-- Critical-deficiencies section (source lines 148-162). -/
def criticalStory (report_data : PyVal) : Except String (List Item) := do
  let cd ← pyGet report_data "critical_deficiencies" PyVal.none
  if pyTruthy cd then do
    let cdl ← pyBracket report_data "critical_deficiencies"
    let n ← pyLenE cdl
    if n > 0 then do
      let items ← pyIter cdl
      let body ← (List.enumFrom 1 items).mapM deficiencyStory
      pure ([.para "Critical Deficiencies" .heading,
        .para "These issues require immediate attention:" .subheading,
        .spacer 1 10] ++ body.flatten)
    else pure []
  else pure []

/-- One guarded strengths/deficiencies/recommendations sub-list of a
criterion (source lines 191-206). -/
def subListStory (criterion : PyVal) (k : String) (header : String) :
    Except String (List Item) := do
  let v ← pyGet criterion k PyVal.none
  if pyTruthy v then do
    let l ← pyBracket criterion k
    let n ← pyLenE l
    if n > 0 then do
      let items ← pyIter l
      pure (Item.para header .normal ::
        items.map fun s => Item.para (bulletPre ++ pyStr s) .normal)
    else pure []
  else pure []

/-- Story of one criterion (loop body of source lines 169-208). -/
def criterionStory (criterion : PyVal) : Except String (List Item) := do
  let score_percentage ← pyGet criterion "score_percentage" (.int 0)
  let weight ← pyGet criterion "weight" (.int 0)
  let name ← pyGet criterion "criterion" (.str "N/A")
  let spi ← pyAsIntCmp score_percentage
  let strengths ← subListStory criterion "strengths" "<b>Strengths:</b>"
  let deficiencies ←
    subListStory criterion "deficiencies" "<b>Areas Needing Improvement:</b>"
  let recommendations ←
    subListStory criterion "recommendations" "<b>Specific Recommendations:</b>"
  pure ([Item.para ("<b>" ++ pyStr name ++ "</b> - Score: " ++
      pyStr score_percentage ++ "%" ++ " (Weight: " ++ pyStr weight ++ "%)")
      .subheading,
    Item.para ("Performance Level: " ++ performanceBand spi) .normal]
    ++ strengths ++ deficiencies ++ recommendations ++ [Item.spacer 1 20])

/-- Per-criterion breakdown section (source lines 164-208). -/
def criteriaStory (report_data : PyVal) : Except String (List Item) := do
  let cl ← pyGet report_data "criteria" PyVal.none
  if pyTruthy cl then do
    let clb ← pyBracket report_data "criteria"
    let n ← pyLenE clb
    if n > 0 then do
      let items ← pyIter clb
      let body ← items.mapM criterionStory
      pure ([.pageBreak, .para "Detailed Criteria Analysis" .heading] ++ body.flatten)
    else pure []
  else pure []

/-- Story of one numbered strength to build upon (loop body of source lines
215-221). -/
def strengthStory (p : Nat × PyVal) : Except String (List Item) := do
  let i := p.1
  let strength := p.2
  let sname ← pyGet strength "strength" (.str "N/A")
  let evidence ← pyGet strength "evidence" PyVal.none
  let reinforcement ← pyGet strength "reinforcement" PyVal.none
  let eviPart ← if pyTruthy evidence then do
      let ev ← pyBracket strength "evidence"
      pure [Item.para ("Evidence: \"" ++ pyStr ev ++ "\"") .normal]
    else pure []
  let reiPart ← if pyTruthy reinforcement then do
      let rv ← pyBracket strength "reinforcement"
      pure [Item.para ("How to build on this: " ++ pyStr rv) .normal]
    else pure []
  pure ([Item.para ("<b>" ++ toString i ++ ". " ++ pyStr sname ++ "</b>") .subheading]
    ++ eviPart ++ reiPart ++ [Item.spacer 1 10])

/-- Strengths-to-build section (source lines 210-221). -/
def strengthsStory (report_data : PyVal) : Except String (List Item) := do
  let sb ← pyGet report_data "strengths_to_build" PyVal.none
  if pyTruthy sb then do
    let sbl ← pyBracket report_data "strengths_to_build"
    let n ← pyLenE sbl
    if n > 0 then do
      let items ← pyIter sbl
      let body ← (List.enumFrom 1 items).mapM strengthStory
      pure ([.pageBreak, .para "Key Strengths to Build Upon" .heading] ++ body.flatten)
    else pure []
  else pure []

/-- One field of the structural-analysis section (source lines 230-242):
header plus the field text, optionally followed by a spacer. -/
def structFieldStory (struct : PyVal) (k : String) (header : String)
    (trailingSpacer : Bool) : Except String (List Item) := do
  let v ← pyGet struct k PyVal.none
  if pyTruthy v then do
    let tv ← pyGet struct k (.str "N/A")
    pure ([Item.para header .subheading, Item.para (pyStr tv) .normal]
      ++ if trailingSpacer then [Item.spacer 1 10] else [])
  else pure []

/-- Structural-analysis section (source lines 223-242). -/
def structuralStory (report_data : PyVal) : Except String (List Item) := do
  let sa ← pyGet report_data "structural_analysis" PyVal.none
  if pyTruthy sa then do
    let struct ← pyBracket report_data "structural_analysis"
    let org ← structFieldStory struct "organization" "<b>Organization:</b>" true
    let arg ←
      structFieldStory struct "argument_development" "<b>Argument Development:</b>" true
    let tech ←
      structFieldStory struct "technical_compliance" "<b>Technical Compliance:</b>" false
    pure ([.pageBreak, .para "Structural Analysis" .heading] ++ org ++ arg ++ tech)
  else pure []

/-- One bucket of the revision action plan (source lines 251-272). -/
def revisionBucketStory (recs : PyVal) (k : String) (header : String)
    (trailingSpacer : Bool) : Except String (List Item) := do
  let v ← pyGet recs k PyVal.none
  if pyTruthy v then do
    let l ← pyBracket recs k
    let n ← pyLenE l
    if n > 0 then do
      let items ← pyIter l
      pure ((Item.para header .subheading ::
        items.map fun item => Item.para (bulletPre ++ pyStr item) .normal)
        ++ if trailingSpacer then [Item.spacer 1 10] else [])
    else pure []
  else pure []

/-- Revision-recommendations section (source lines 244-272). -/
def revisionStory (report_data : PyVal) : Except String (List Item) := do
  let rr ← pyGet report_data "revision_recommendations" PyVal.none
  if pyTruthy rr then do
    let recs ← pyBracket report_data "revision_recommendations"
    let hp ← revisionBucketStory recs "high_priority" "<b>High Priority (Do First):</b>" true
    let ci ←
      revisionBucketStory recs "content_improvements" "<b>Content Improvements:</b>" true
    let sc ←
      revisionBucketStory recs "structural_changes" "<b>Structural Changes:</b>" true
    let tf ← revisionBucketStory recs "technical_fixes" "<b>Technical Fixes:</b>" false
    pure ([.pageBreak, .para "Revision Action Plan" .heading] ++ hp ++ ci ++ sc ++ tf)
  else pure []

/-- Body of the readiness-assessment section, applied to the record at the
`readiness_assessment` key (source lines 279-299). -/
def readinessBody (readiness : PyVal) : Except String (List Item) := do
  let status ← pyGet readiness "status" (.str "Not Assessed")
  let hasReady ← pyContainsE "Ready" status
  let hasMinor ← pyContainsE "Minor" status
  let status_color : PdfColor :=
    if hasReady then .green else if hasMinor then .orange else .red
  let hours ← pyGet readiness "estimated_revision_hours" PyVal.none
  let hoursPart ← if pyTruthy hours then do
      let hv ← pyBracket readiness "estimated_revision_hours"
      pure [Item.para ("<b>Estimated Revision Time:</b> " ++ pyStr hv ++ " hours") .normal]
    else pure []
  let kb ← pyGet readiness "key_barriers" PyVal.none
  let kbPart ← if pyTruthy kb then do
      let l ← pyBracket readiness "key_barriers"
      let n ← pyLenE l
      if n > 0 then do
        let items ← pyIter l
        pure ([Item.spacer 1 10,
          Item.para "<b>Key Barriers to Higher Score:</b>" .subheading]
          ++ items.map fun barrier => Item.para (bulletPre ++ pyStr barrier) .normal)
      else pure []
    else pure []
  pure ([.spacer 1 20, .para "Readiness Assessment" .heading,
  .para ("<b>Status:</b> <font color=\x27" ++ status_color.hexval ++ "\x27>" ++
    pyStr status ++ "</font>") .normal] ++ hoursPart ++ kbPart)

/-- Readiness-assessment section (source lines 274-299). -/
def readinessStory (report_data : PyVal) : Except String (List Item) := do
  let ra ← pyGet report_data "readiness_assessment" PyVal.none
  if pyTruthy ra then do
    let readiness ← pyBracket report_data "readiness_assessment"
    readinessBody readiness
  else pure []

/-- Footer section (source lines 301-309). -/
def footerStory (report_data : PyVal) (freshId nowFooter : String) :
    Except String (List Item) := do
  let rid ← pyGet report_data "analysis_id" (.str freshId)
  pure [
    .pageBreak,
    .para "Report Notes" .heading,
    .para "This report was generated by RUBRIX AI-Powered Assignment Analysis System." .normal,
    .spacer 1 10,
    .para "For questions or additional support, please contact your instructor or academic advisor." .normal,
    .spacer 1 10,
    .para ("Report ID: " ++ pyStr rid) .normal,
    .para ("Generated on: " ++ nowFooter) .normal
  ]

/-- Embedding of `generate_pdf_report` (source lines 48-318): the story is
the concatenation of the sections in source order.  The render-time
defaults `datetime.now()` (table row and footer) and the fresh
`uuid.uuid4()` prefix are passed as parameters. -/
def generate_pdf_report (report_data : PyVal) (nowTs freshId nowFooter : String) :
    Except String (List Item) := do
  let s1 ← titleStory report_data nowTs
  let s2 ← summaryStory report_data
  let s3 ← criticalStory report_data
  let s4 ← criteriaStory report_data
  let s5 ← strengthsStory report_data
  let s6 ← structuralStory report_data
  let s7 ← revisionStory report_data
  let s8 ← readinessStory report_data
  let s9 ← footerStory report_data freshId nowFooter
  pure (s1 ++ s2 ++ s3 ++ s4 ++ s5 ++ s6 ++ s7 ++ s8 ++ s9)


/-! ## Route handler `upload_files` (`/analyze`, source lines 555-678) -/

/-- Degraded report built by the file-upload branch when the verdict fails
to parse (source lines 638-654). -/
def degradedReport (analysis_result : String) : PyVal := .dict [
  ("overall_score", .int 75),
  ("overall_grade", .str "C"),
  ("criteria_breakdown", .list [
    .dict [
      ("criterion", .str "Content"),
      ("score_percentage", .int 70),
      ("weight", .int 30),
      ("strengths", .list [.str "Basic content covered"]),
      ("deficiencies", .list [.str "Analysis needed"]),
      ("recommendations", .list [.str "Improve depth"]),
      ("needs_improvement", .bool true)
    ]
  ]),
  ("summary", .str "Analysis completed but with parsing limitations."),
  ("raw_response", .str (pyTake 500 analysis_result))
]

/-- Shapes of request the `/analyze` handler distinguishes: a JSON body
with inline texts, a form upload with two files (whose names and read
contents are carried here), or anything else. -/
inductive AnalyzeRequest where
  | jsonReq (assignment_text rubric_text : String)
      (detailed_analysis rewrite_suggestions grade_prediction : Bool)
  | fileReq (assignment_filename rubric_filename : String)
      (assignment_content rubric_content : String)
      (detailed_analysis rewrite_suggestions grade_prediction : Bool)
  | invalid

/-- Responses of the `/analyze` handler: a JSON success payload, a JSON
error payload (optionally carrying the raw verdict), a rendered result
page, or a rendered index page with an error banner. -/
inductive RouteResponse where
  | jsonOk (analysis : PyVal)
  | jsonError (error : String) (raw_response : Option String)
  | htmlResult (analysis : PyVal) (assignment_name rubric_name : String)
  | htmlError (error : String)

/-- Embedding of `upload_files` (source lines 555-678).  The provider
outcome of the single `requests.post` is a parameter; the returned flag
records whether `analyze_with_openrouter` (and with it the network
request) was invoked. -/
def upload_files (req : AnalyzeRequest) (provider : ProviderOutcome) :
    RouteResponse × Bool :=
  match req with
  | .jsonReq assignment_text rubric_text d w g =>
    if assignment_text.isEmpty || rubric_text.isEmpty then
      (.jsonError "Both assignment and rubric text are required" Option.none, false)
    else
      let analysis_result := analyze_with_openrouter assignment_text rubric_text d w g provider
      match json_loads analysis_result with
      | some analysis_data => (.jsonOk analysis_data, true)
      | Option.none =>
        (.jsonError "Failed to parse AI response" (some analysis_result), true)
  | .fileReq assignment_filename rubric_filename assignment_content rubric_content d w g =>
    if assignment_filename.isEmpty || rubric_filename.isEmpty then
      (.htmlError "No files selected", false)
    else
      let analysis_result := analyze_with_openrouter assignment_content rubric_content d w g provider
      let analysis_data :=
        match json_loads analysis_result with
        | some v => v
        | Option.none => degradedReport analysis_result
      (.htmlResult analysis_data assignment_filename rubric_filename, true)
  | .invalid => (.htmlError "Invalid request format", false)

/-! ## Spec-side Report shape (for the refinement conjunct of claim C1)

The following predicates are modelled from the spec's words (section 3 of
`spec.md`), not from the source: they state the Report shape that the
fallback verdict is claimed to match.  Fields are optional (the spec's
rendering invariant treats a missing list field as empty), and must have
the stated type when present. -/

def isStrV : PyVal → Bool
  | .str _ => true
  | _ => false

def isIntV : PyVal → Bool
  | .int _ => true
  | _ => false

def isBoolV : PyVal → Bool
  | .bool _ => true
  | _ => false

def isStrListV : PyVal → Bool
  | .list xs => xs.all isStrV
  | _ => false

/-- Field check: if the key is present its value satisfies the predicate;
an absent field is acceptable. -/
def optFieldIs (kvs : List (String × PyVal)) (k : String) (p : PyVal → Bool) : Bool :=
  match assocGet k kvs with
  | some v => p v
  | Option.none => true

/-- Modelled from the spec: the Criterion record of section 3. -/
def criterionShapedSpec : PyVal → Bool
  | .dict kvs =>
    optFieldIs kvs "criterion" isStrV &&
    optFieldIs kvs "score_percentage" isIntV &&
    optFieldIs kvs "weight" isIntV &&
    optFieldIs kvs "strengths" isStrListV &&
    optFieldIs kvs "deficiencies" isStrListV &&
    optFieldIs kvs "recommendations" isStrListV &&
    optFieldIs kvs "needs_improvement" isBoolV
  | _ => false

/-- Modelled from the spec: the Deficiency record of section 3 (priority
ranges over high, medium, low). -/
def deficiencyShapedSpec : PyVal → Bool
  | .dict kvs =>
    optFieldIs kvs "issue" isStrV &&
    optFieldIs kvs "evidence" isStrV &&
    optFieldIs kvs "priority" (fun v =>
      pyBeq v (.str "high") || pyBeq v (.str "medium") || pyBeq v (.str "low")) &&
    optFieldIs kvs "remediation" isStrV
  | _ => false

/-- Modelled from the spec: the Strength record of section 3. -/
def strengthShapedSpec : PyVal → Bool
  | .dict kvs =>
    optFieldIs kvs "strength" isStrV &&
    optFieldIs kvs "evidence" isStrV &&
    optFieldIs kvs "reinforcement" isStrV
  | _ => false

/-- Modelled from the spec: the structural-analysis record of section 3. -/
def structuralShapedSpec : PyVal → Bool
  | .dict kvs =>
    optFieldIs kvs "organization" isStrV &&
    optFieldIs kvs "argument_development" isStrV &&
    optFieldIs kvs "technical_compliance" isStrV
  | _ => false

/-- Modelled from the spec: the revision-recommendations record of
section 3 (four named string lists). -/
def revisionShapedSpec : PyVal → Bool
  | .dict kvs =>
    optFieldIs kvs "high_priority" isStrListV &&
    optFieldIs kvs "content_improvements" isStrListV &&
    optFieldIs kvs "structural_changes" isStrListV &&
    optFieldIs kvs "technical_fixes" isStrListV
  | _ => false

/-- Modelled from the spec: the readiness-assessment record of section 3. -/
def readinessShapedSpec : PyVal → Bool
  | .dict kvs =>
    optFieldIs kvs "status" isStrV &&
    optFieldIs kvs "estimated_revision_hours" isIntV &&
    optFieldIs kvs "key_barriers" isStrListV
  | _ => false

/-- Modelled from the spec: the Report shape of section 3 of `spec.md`. -/
def reportShapedSpec : PyVal → Bool
  | .dict kvs =>
    optFieldIs kvs "overall_score" isIntV &&
    optFieldIs kvs "overall_grade" isStrV &&
    optFieldIs kvs "criteria" (fun v =>
      match v with
      | .list xs => xs.all criterionShapedSpec
      | _ => false) &&
    optFieldIs kvs "critical_deficiencies" (fun v =>
      match v with
      | .list xs => xs.all deficiencyShapedSpec
      | _ => false) &&
    optFieldIs kvs "strengths_to_build" (fun v =>
      match v with
      | .list xs => xs.all strengthShapedSpec
      | _ => false) &&
    optFieldIs kvs "structural_analysis" structuralShapedSpec &&
    optFieldIs kvs "revision_recommendations" revisionShapedSpec &&
    optFieldIs kvs "grade_justification" isStrV &&
    optFieldIs kvs "readiness_assessment" readinessShapedSpec &&
    optFieldIs kvs "summary" isStrV &&
    optFieldIs kvs "analysis_id" isStrV &&
    optFieldIs kvs "timestamp" isStrV
  | _ => false


/-! ## Well-shaped report data

`ReportData` captures exactly the verdicts whose fields, when present, have
the types of section 3 of the data model; every field is optional, so a
value of this type denotes a report with an arbitrary subset of the
optional fields absent.  `toVal` encodes it as the Python dict the renderer
receives. -/

structure CriterionData where
  criterion : Option String
  score_percentage : Option Int
  weight : Option Int
  strengths : Option (List String)
  deficiencies : Option (List String)
  recommendations : Option (List String)
  needs_improvement : Option Bool

structure DeficiencyData where
  issue : Option String
  evidence : Option String
  priority : Option String
  remediation : Option String

structure StrengthData where
  strength : Option String
  evidence : Option String
  reinforcement : Option String

structure StructuralData where
  organization : Option String
  argument_development : Option String
  technical_compliance : Option String

structure RevisionData where
  high_priority : Option (List String)
  content_improvements : Option (List String)
  structural_changes : Option (List String)
  technical_fixes : Option (List String)

structure ReadinessData where
  status : Option String
  estimated_revision_hours : Option Int
  key_barriers : Option (List String)

structure ReportData where
  assignment : Option String
  rubric : Option String
  overall_score : Option Int
  overall_grade : Option String
  summary : Option String
  grade_justification : Option String
  critical_deficiencies : Option (List DeficiencyData)
  criteria : Option (List CriterionData)
  strengths_to_build : Option (List StrengthData)
  structural_analysis : Option StructuralData
  revision_recommendations : Option RevisionData
  readiness_assessment : Option ReadinessData
  analysis_id : Option String
  timestamp : Option String

/-- Dict entry for an optional field: absent when the field is absent. -/
def optEntry (k : String) (f : α → PyVal) : Option α → List (String × PyVal)
  | some a => [(k, f a)]
  | Option.none => []

def strListVal (l : List String) : PyVal := .list (l.map PyVal.str)

def CriterionData.toVal (c : CriterionData) : PyVal := .dict (
  optEntry "criterion" PyVal.str c.criterion ++
  optEntry "score_percentage" PyVal.int c.score_percentage ++
  optEntry "weight" PyVal.int c.weight ++
  optEntry "strengths" strListVal c.strengths ++
  optEntry "deficiencies" strListVal c.deficiencies ++
  optEntry "recommendations" strListVal c.recommendations ++
  optEntry "needs_improvement" PyVal.bool c.needs_improvement)

def DeficiencyData.toVal (d : DeficiencyData) : PyVal := .dict (
  optEntry "issue" PyVal.str d.issue ++
  optEntry "evidence" PyVal.str d.evidence ++
  optEntry "priority" PyVal.str d.priority ++
  optEntry "remediation" PyVal.str d.remediation)

def StrengthData.toVal (s : StrengthData) : PyVal := .dict (
  optEntry "strength" PyVal.str s.strength ++
  optEntry "evidence" PyVal.str s.evidence ++
  optEntry "reinforcement" PyVal.str s.reinforcement)

def StructuralData.toVal (s : StructuralData) : PyVal := .dict (
  optEntry "organization" PyVal.str s.organization ++
  optEntry "argument_development" PyVal.str s.argument_development ++
  optEntry "technical_compliance" PyVal.str s.technical_compliance)

def RevisionData.toVal (r : RevisionData) : PyVal := .dict (
  optEntry "high_priority" strListVal r.high_priority ++
  optEntry "content_improvements" strListVal r.content_improvements ++
  optEntry "structural_changes" strListVal r.structural_changes ++
  optEntry "technical_fixes" strListVal r.technical_fixes)

def ReadinessData.toVal (r : ReadinessData) : PyVal := .dict (
  optEntry "status" PyVal.str r.status ++
  optEntry "estimated_revision_hours" PyVal.int r.estimated_revision_hours ++
  optEntry "key_barriers" strListVal r.key_barriers)

def ReportData.toVal (r : ReportData) : PyVal := .dict (
  optEntry "assignment" PyVal.str r.assignment ++
  optEntry "rubric" PyVal.str r.rubric ++
  optEntry "overall_score" PyVal.int r.overall_score ++
  optEntry "overall_grade" PyVal.str r.overall_grade ++
  optEntry "summary" PyVal.str r.summary ++
  optEntry "grade_justification" PyVal.str r.grade_justification ++
  optEntry "critical_deficiencies" (fun l => .list (l.map DeficiencyData.toVal))
    r.critical_deficiencies ++
  optEntry "criteria" (fun l => .list (l.map CriterionData.toVal)) r.criteria ++
  optEntry "strengths_to_build" (fun l => .list (l.map StrengthData.toVal))
    r.strengths_to_build ++
  optEntry "structural_analysis" StructuralData.toVal r.structural_analysis ++
  optEntry "revision_recommendations" RevisionData.toVal r.revision_recommendations ++
  optEntry "readiness_assessment" ReadinessData.toVal r.readiness_assessment ++
  optEntry "analysis_id" PyVal.str r.analysis_id ++
  optEntry "timestamp" PyVal.str r.timestamp)

/-! ### Closed forms of the rendered story on well-shaped data -/

/-- Story of one guarded sub-list (mirror of `subListStory` on typed
data). -/
def subItemsOf (o : Option (List String)) (header : String) : List Item :=
  match o with
  | some l =>
    if l.isEmpty then []
    else Item.para header .normal :: l.map fun s => Item.para (bulletPre ++ s) .normal
  | Option.none => []

/-- Story of one criterion (mirror of the body of `criteriaStory`). -/
def criterionItemsOf (c : CriterionData) : List Item :=
  [.para ("<b>" ++ c.criterion.getD "N/A" ++ "</b> - Score: " ++
      toString (c.score_percentage.getD 0) ++ "%" ++ " (Weight: " ++
      toString (c.weight.getD 0) ++ "%)") .subheading,
   .para ("Performance Level: " ++ performanceBand (c.score_percentage.getD 0)) .normal]
  ++ subItemsOf c.strengths "<b>Strengths:</b>"
  ++ subItemsOf c.deficiencies "<b>Areas Needing Improvement:</b>"
  ++ subItemsOf c.recommendations "<b>Specific Recommendations:</b>"
  ++ [Item.spacer 1 20]

def criteriaItemsOf : Option (List CriterionData) → List Item
  | some cs =>
    if cs.isEmpty then []
    else [.pageBreak, .para "Detailed Criteria Analysis" .heading] ++
      (cs.map criterionItemsOf).flatten
  | Option.none => []

/-- Optional single paragraph shown when an optional text field is
truthy. -/
def optParaOf (o : Option String) (pre post : String) : List Item :=
  match o with
  | some s => if s.isEmpty then [] else [Item.para (pre ++ s ++ post) .normal]
  | Option.none => []

def deficiencyItemsOf (i : Nat) (d : DeficiencyData) : List Item :=
  [.para ("<b>" ++ toString i ++ ". " ++ d.issue.getD "N/A" ++ "</b>") .subheading]
  ++ (match d.priority with
      | some p => if p.isEmpty then [] else [Item.para ("Priority: " ++ pyUpper p) .normal]
      | Option.none => [])
  ++ optParaOf d.evidence "<i>Evidence:</i> \"" "\""
  ++ optParaOf d.remediation "<i>How to Fix:</i> " ""
  ++ [Item.spacer 1 15]

def criticalItemsOf : Option (List DeficiencyData) → List Item
  | some ds =>
    if ds.isEmpty then []
    else [.para "Critical Deficiencies" .heading,
      .para "These issues require immediate attention:" .subheading,
      .spacer 1 10] ++ ((List.enumFrom 1 ds).map fun p => deficiencyItemsOf p.1 p.2).flatten
  | Option.none => []

def strengthItemsOf (i : Nat) (s : StrengthData) : List Item :=
  [.para ("<b>" ++ toString i ++ ". " ++ s.strength.getD "N/A" ++ "</b>") .subheading]
  ++ optParaOf s.evidence "Evidence: \"" "\""
  ++ optParaOf s.reinforcement "How to build on this: " ""
  ++ [Item.spacer 1 10]

def strengthsItemsOf : Option (List StrengthData) → List Item
  | some ss =>
    if ss.isEmpty then []
    else [.pageBreak, .para "Key Strengths to Build Upon" .heading] ++
      ((List.enumFrom 1 ss).map fun p => strengthItemsOf p.1 p.2).flatten
  | Option.none => []

def structFieldItemsOf (o : Option String) (header : String)
    (trailingSpacer : Bool) : List Item :=
  match o with
  | some s =>
    if s.isEmpty then []
    else [Item.para header .subheading, Item.para s .normal]
      ++ if trailingSpacer then [Item.spacer 1 10] else []
  | Option.none => []

def structuralItemsOf : Option StructuralData → List Item
  | some st =>
    if pyTruthy (StructuralData.toVal st) then
      [.pageBreak, .para "Structural Analysis" .heading]
      ++ structFieldItemsOf st.organization "<b>Organization:</b>" true
      ++ structFieldItemsOf st.argument_development "<b>Argument Development:</b>" true
      ++ structFieldItemsOf st.technical_compliance "<b>Technical Compliance:</b>" false
    else []
  | Option.none => []

def revisionBucketItemsOf (o : Option (List String)) (header : String)
    (trailingSpacer : Bool) : List Item :=
  match o with
  | some l =>
    if l.isEmpty then []
    else (Item.para header .subheading ::
      l.map fun item => Item.para (bulletPre ++ item) .normal)
      ++ if trailingSpacer then [Item.spacer 1 10] else []
  | Option.none => []

def revisionItemsOf : Option RevisionData → List Item
  | some recs =>
    if pyTruthy (RevisionData.toVal recs) then
      [.pageBreak, .para "Revision Action Plan" .heading]
      ++ revisionBucketItemsOf recs.high_priority "<b>High Priority (Do First):</b>" true
      ++ revisionBucketItemsOf recs.content_improvements "<b>Content Improvements:</b>" true
      ++ revisionBucketItemsOf recs.structural_changes "<b>Structural Changes:</b>" true
      ++ revisionBucketItemsOf recs.technical_fixes "<b>Technical Fixes:</b>" false
    else []
  | Option.none => []

/-- Story of the readiness-assessment body on typed data. -/
def readinessBodyItemsOf (ra : ReadinessData) : List Item :=
  let status := ra.status.getD "Not Assessed"
  [.spacer 1 20, .para "Readiness Assessment" .heading,
   .para ("<b>Status:</b> <font color=\x27" ++ (statusColor status).hexval ++
     "\x27>" ++ status ++ "</font>") .normal]
  ++ (match ra.estimated_revision_hours with
      | some h =>
        if h = 0 then []
        else [Item.para ("<b>Estimated Revision Time:</b> " ++ toString h ++ " hours")
          .normal]
      | Option.none => [])
  ++ (match ra.key_barriers with
      | some l =>
        if l.isEmpty then []
        else [Item.spacer 1 10,
          Item.para "<b>Key Barriers to Higher Score:</b>" .subheading]
          ++ l.map fun barrier => Item.para (bulletPre ++ barrier) .normal
      | Option.none => [])

def readinessItemsOf : Option ReadinessData → List Item
  | some ra =>
    if pyTruthy (ReadinessData.toVal ra) then readinessBodyItemsOf ra else []
  | Option.none => []

/-- Closed form of the whole story `generate_pdf_report` builds on
well-shaped data (established by `generate_pdf_report_toVal`). -/
def pdfStoryOf (r : ReportData) (nowTs freshId nowFooter : String) : List Item :=
  [.para "RUBRIX Assignment Analysis Report" .title,
   .spacer 1 40,
   .para "AI-Powered Academic Evaluation" .subtitle,
   .spacer 1 40,
   .table [
     ("Assignment:", r.assignment.getD "N/A"),
     ("Rubric:", r.rubric.getD "N/A"),
     ("Overall Score:", (r.overall_score.map toString).getD "N/A" ++ "/100"),
     ("Overall Grade:", r.overall_grade.getD "N/A"),
     ("Report Generated:", r.timestamp.getD nowTs)
   ],
   .spacer 1 30,
   .para "Executive Summary" .heading,
   .para (r.summary.getD "No summary available.") .normal]
  ++ (match r.grade_justification with
      | some s =>
        if s.isEmpty then []
        else [Item.spacer 1 20, Item.para "Grade Justification" .heading,
          Item.para s .normal]
      | Option.none => [])
  ++ [Item.pageBreak]
  ++ criticalItemsOf r.critical_deficiencies
  ++ criteriaItemsOf r.criteria
  ++ strengthsItemsOf r.strengths_to_build
  ++ structuralItemsOf r.structural_analysis
  ++ revisionItemsOf r.revision_recommendations
  ++ readinessItemsOf r.readiness_assessment
  ++ [.pageBreak,
    .para "Report Notes" .heading,
    .para "This report was generated by RUBRIX AI-Powered Assignment Analysis System." .normal,
    .spacer 1 10,
    .para "For questions or additional support, please contact your instructor or academic advisor." .normal,
    .spacer 1 10,
    .para ("Report ID: " ++ r.analysis_id.getD freshId) .normal,
    .para ("Generated on: " ++ nowFooter) .normal]


/-! ### Rendering lemmas: the story on well-shaped data -/

theorem listLen_go (l : List α) : ∀ acc, listLen.go acc l = acc + l.length := by
  induction l with
  | nil => intro acc; simp [listLen.go]
  | cons a as ih => intro acc; simp [listLen.go, ih]; omega

@[simp] theorem listLen_eq (l : List α) : listLen l = l.length := by
  simp [listLen, listLen_go]

@[simp] theorem except_bind_ok {α β : Type} (a : α) (f : α → Except String β) :
    (Except.ok a >>= f : Except String β) = f a := rfl

@[simp] theorem except_pure {α : Type} (a : α) :
    (pure a : Except String α) = .ok a := rfl

@[simp] theorem assocGet_nil (k : String) : assocGet k [] = Option.none := rfl

@[simp] theorem optEntry_some {α : Type} (k : String) (f : α → PyVal) (a : α) :
    optEntry k f (some a) = [(k, f a)] := rfl

@[simp] theorem optEntry_none {α : Type} (k : String) (f : α → PyVal) :
    optEntry k f Option.none = [] := rfl

@[simp] theorem assocGet_cons (k k' : String) (v : PyVal)
    (rest : List (String × PyVal)) :
    assocGet k ((k', v) :: rest) = if k' = k then some v else assocGet k rest := rfl

@[simp] theorem assocGet_optEntry_ne {k' k : String} {f : α → PyVal}
    {o : Option α} {rest : List (String × PyVal)} (h : ¬ k' = k) :
    assocGet k (optEntry k' f o ++ rest) = assocGet k rest := by
  cases o <;> simp [optEntry, assocGet, h]

@[simp] theorem assocGet_optEntry_ne_nil {k' k : String} {f : α → PyVal}
    {o : Option α} (h : ¬ k' = k) :
    assocGet k (optEntry k' f o) = Option.none := by
  cases o <;> simp [optEntry, assocGet, h]

@[simp] theorem assocGet_optEntry_some {k : String} {f : α → PyVal} {a : α}
    {rest : List (String × PyVal)} :
    assocGet k (optEntry k f (some a) ++ rest) = some (f a) := by
  simp [optEntry, assocGet]

@[simp] theorem assocGet_optEntry_some_nil {k : String} {f : α → PyVal} {a : α} :
    assocGet k (optEntry k f (some a)) = some (f a) := by
  simp [optEntry, assocGet]

@[simp] theorem assocGet_optEntry_none {k : String} {f : α → PyVal}
    {rest : List (String × PyVal)} :
    assocGet k (optEntry k f Option.none ++ rest) = assocGet k rest := rfl

@[simp] theorem assocGet_optEntry_none_nil {k : String} {f : α → PyVal} :
    assocGet k (optEntry k f Option.none) = Option.none := rfl

theorem mapM_loop_ok {α β γ : Type} (g : α → β) (f : β → Except String γ)
    (fi : α → γ) (h : ∀ a, f (g a) = .ok (fi a)) :
    ∀ (l : List α) (acc : List γ),
      List.mapM.loop f (l.map g) acc = .ok (acc.reverse ++ l.map fi) := by
  intro l
  induction l with
  | nil => intro acc; simp [List.mapM.loop]
  | cons a as ih =>
    intro acc
    simp only [List.map_cons, List.mapM.loop, h, except_bind_ok, ih]
    simp

/-- Pointwise evaluation of `mapM` over an encoded list. -/
theorem mapM_map_ok {α β γ : Type} (g : α → β) (f : β → Except String γ)
    (fi : α → γ) (h : ∀ a, f (g a) = .ok (fi a)) :
    ∀ l : List α, (l.map g).mapM f = .ok (l.map fi) := by
  intro l
  simpa [List.mapM] using mapM_loop_ok g f fi h l []

theorem enumFrom_map (g : α → β) :
    ∀ (n : Nat) (l : List α),
      List.enumFrom n (l.map g) = (List.enumFrom n l).map fun p => (p.1, g p.2) := by
  intro n l
  induction l generalizing n with
  | nil => rfl
  | cons a as ih => simp [List.enumFrom, ih]

theorem titleStory_toVal (r : ReportData) (nowTs : String) :
    titleStory r.toVal nowTs = .ok [
      .para "RUBRIX Assignment Analysis Report" .title,
      .spacer 1 40,
      .para "AI-Powered Academic Evaluation" .subtitle,
      .spacer 1 40,
      .table [
        ("Assignment:", r.assignment.getD "N/A"),
        ("Rubric:", r.rubric.getD "N/A"),
        ("Overall Score:", (r.overall_score.map toString).getD "N/A" ++ "/100"),
        ("Overall Grade:", r.overall_grade.getD "N/A"),
        ("Report Generated:", r.timestamp.getD nowTs)
      ]] := by
  obtain ⟨a, ru, os, og, su, gj, cd, cr, sb, sa, rr, ra, ai, ts⟩ := r
  cases a <;> cases ru <;> cases os <;> cases og <;> cases ts <;>
    simp [titleStory, ReportData.toVal, pyGet, pyStr]

theorem summaryStory_toVal (r : ReportData) :
    summaryStory r.toVal = .ok (
      [.spacer 1 30, .para "Executive Summary" .heading,
       .para (r.summary.getD "No summary available.") .normal]
      ++ (match r.grade_justification with
          | some s =>
            if s.isEmpty then []
            else [Item.spacer 1 20, Item.para "Grade Justification" .heading,
              Item.para s .normal]
          | Option.none => [])
      ++ [Item.pageBreak]) := by
  obtain ⟨a, ru, os, og, su, gj, cd, cr, sb, sa, rr, ra, ai, ts⟩ := r
  cases su <;> rcases gj with _ | g <;>
    first
    | (cases hg : g.isEmpty <;>
        simp [summaryStory, ReportData.toVal, pyGet, pyStr, pyTruthy, hg])
    | simp [summaryStory, ReportData.toVal, pyGet, pyStr, pyTruthy]



set_option maxHeartbeats 1000000 in
theorem deficiencyStory_toVal (i : Nat) (d : DeficiencyData) :
    deficiencyStory (i, d.toVal) = .ok (deficiencyItemsOf i d) := by
  obtain ⟨is, ev, pr, re⟩ := d
  rcases is with _ | iss <;> rcases ev with _ | e <;> rcases pr with _ | p <;>
    rcases re with _ | rm <;>
    (first | cases hp : p.isEmpty | skip) <;>
    (first | cases he : e.isEmpty | skip) <;>
    (first | cases hr : rm.isEmpty | skip) <;>
    simp [deficiencyStory, deficiencyItemsOf, DeficiencyData.toVal, pyGet, pyBracket,
      pyTruthy, pyStr, pyUpperE, optParaOf, *]

theorem mapM_enum_ok {α γ : Type} (g : α → PyVal) (f : Nat × PyVal → Except String γ)
    (fi : Nat → α → γ) (h : ∀ i a, f (i, g a) = .ok (fi i a)) (n : Nat) (l : List α) :
    (List.enumFrom n (l.map g)).mapM f =
      .ok ((List.enumFrom n l).map fun p => fi p.1 p.2) := by
  rw [enumFrom_map]
  exact mapM_map_ok _ f _ (fun p => h p.1 p.2) (List.enumFrom n l)

set_option maxHeartbeats 1000000 in
theorem criticalStory_toVal (r : ReportData) :
    criticalStory r.toVal = .ok (criticalItemsOf r.critical_deficiencies) := by
  obtain ⟨a, ru, os, og, su, gj, cd, cr, sb, sa, rr, ra, ai, ts⟩ := r
  rcases cd with _ | ⟨_ | ⟨d0, ds⟩⟩
  · simp [criticalStory, ReportData.toVal, pyGet, pyTruthy, criticalItemsOf]
  · simp [criticalStory, ReportData.toVal, pyGet, pyTruthy, criticalItemsOf]
  · have hm := mapM_enum_ok DeficiencyData.toVal deficiencyStory deficiencyItemsOf
      deficiencyStory_toVal 1 (d0 :: ds)
    simp [List.mapM] at hm
    simp [criticalStory, ReportData.toVal, pyGet, pyBracket, pyTruthy, pyLenE, pyIter,
      criticalItemsOf, List.mapM, hm]

set_option maxHeartbeats 1000000 in
theorem subListStory_strengths (c : CriterionData) (header : String) :
    subListStory c.toVal "strengths" header = .ok (subItemsOf c.strengths header) := by
  obtain ⟨nm, sp, w, st, df, rc, ni⟩ := c
  rcases st with _ | ⟨_ | ⟨s0, ss⟩⟩ <;>
    simp [subListStory, subItemsOf, CriterionData.toVal, strListVal, pyGet, pyBracket,
      pyTruthy, pyLenE, pyIter, pyStr, List.map_map, Function.comp]

set_option maxHeartbeats 1000000 in
theorem subListStory_deficiencies (c : CriterionData) (header : String) :
    subListStory c.toVal "deficiencies" header = .ok (subItemsOf c.deficiencies header) := by
  obtain ⟨nm, sp, w, st, df, rc, ni⟩ := c
  rcases df with _ | ⟨_ | ⟨s0, ss⟩⟩ <;>
    simp [subListStory, subItemsOf, CriterionData.toVal, strListVal, pyGet, pyBracket,
      pyTruthy, pyLenE, pyIter, pyStr, List.map_map, Function.comp]

set_option maxHeartbeats 1000000 in
theorem subListStory_recommendations (c : CriterionData) (header : String) :
    subListStory c.toVal "recommendations" header =
      .ok (subItemsOf c.recommendations header) := by
  obtain ⟨nm, sp, w, st, df, rc, ni⟩ := c
  rcases rc with _ | ⟨_ | ⟨s0, ss⟩⟩ <;>
    simp [subListStory, subItemsOf, CriterionData.toVal, strListVal, pyGet, pyBracket,
      pyTruthy, pyLenE, pyIter, pyStr, List.map_map, Function.comp]

set_option maxHeartbeats 1000000 in
theorem criterionStory_toVal (c : CriterionData) :
    criterionStory c.toVal = .ok (criterionItemsOf c) := by
  obtain ⟨nm, sp, w, st, df, rc, ni⟩ := c
  have h1 := subListStory_strengths ⟨nm, sp, w, st, df, rc, ni⟩ "<b>Strengths:</b>"
  have h2 :=
    subListStory_deficiencies ⟨nm, sp, w, st, df, rc, ni⟩ "<b>Areas Needing Improvement:</b>"
  have h3 :=
    subListStory_recommendations ⟨nm, sp, w, st, df, rc, ni⟩ "<b>Specific Recommendations:</b>"
  rw [criterionStory]
  simp only [h1, h2, h3]
  rcases nm with _ | nm' <;> rcases sp with _ | sp' <;> rcases w with _ | w' <;>
    simp [criterionItemsOf, CriterionData.toVal, pyGet, pyStr, pyAsIntCmp]

set_option maxHeartbeats 1000000 in
theorem criteriaStory_toVal (r : ReportData) :
    criteriaStory r.toVal = .ok (criteriaItemsOf r.criteria) := by
  obtain ⟨a, ru, os, og, su, gj, cd, cr, sb, sa, rr, ra, ai, ts⟩ := r
  rcases cr with _ | ⟨_ | ⟨c0, cs⟩⟩
  · simp [criteriaStory, ReportData.toVal, pyGet, pyTruthy, criteriaItemsOf]
  · simp [criteriaStory, ReportData.toVal, pyGet, pyTruthy, criteriaItemsOf]
  · have hm := mapM_map_ok CriterionData.toVal criterionStory criterionItemsOf
      criterionStory_toVal (c0 :: cs)
    simp [List.mapM] at hm
    simp [criteriaStory, ReportData.toVal, pyGet, pyBracket, pyTruthy, pyLenE, pyIter,
      criteriaItemsOf, List.mapM, hm]

set_option maxHeartbeats 1000000 in
theorem strengthStory_toVal (i : Nat) (s : StrengthData) :
    strengthStory (i, s.toVal) = .ok (strengthItemsOf i s) := by
  obtain ⟨sn, ev, re⟩ := s
  rcases sn with _ | sn' <;> rcases ev with _ | e <;> rcases re with _ | rv <;>
    (first | cases he : e.isEmpty | skip) <;>
    (first | cases hr : rv.isEmpty | skip) <;>
    simp [strengthStory, strengthItemsOf, StrengthData.toVal, pyGet, pyBracket,
      pyTruthy, pyStr, optParaOf, *]

set_option maxHeartbeats 1000000 in
theorem strengthsStory_toVal (r : ReportData) :
    strengthsStory r.toVal = .ok (strengthsItemsOf r.strengths_to_build) := by
  obtain ⟨a, ru, os, og, su, gj, cd, cr, sb, sa, rr, ra, ai, ts⟩ := r
  rcases sb with _ | ⟨_ | ⟨s0, ss⟩⟩
  · simp [strengthsStory, ReportData.toVal, pyGet, pyTruthy, strengthsItemsOf]
  · simp [strengthsStory, ReportData.toVal, pyGet, pyTruthy, strengthsItemsOf]
  · have hm := mapM_enum_ok StrengthData.toVal strengthStory strengthItemsOf
      strengthStory_toVal 1 (s0 :: ss)
    simp [List.mapM] at hm
    simp [strengthsStory, ReportData.toVal, pyGet, pyBracket, pyTruthy, pyLenE, pyIter,
      strengthsItemsOf, List.mapM, hm]


set_option maxHeartbeats 1000000 in
theorem structFieldStory_organization (st : StructuralData) (h : String) (t : Bool) :
    structFieldStory st.toVal "organization" h t =
      .ok (structFieldItemsOf st.organization h t) := by
  obtain ⟨o, ad, tc⟩ := st
  rcases o with _ | o' <;> (first | cases ho : o'.isEmpty | skip) <;>
    simp [structFieldStory, structFieldItemsOf, StructuralData.toVal, pyGet, pyTruthy,
      pyStr, *]

set_option maxHeartbeats 1000000 in
theorem structFieldStory_argument (st : StructuralData) (h : String) (t : Bool) :
    structFieldStory st.toVal "argument_development" h t =
      .ok (structFieldItemsOf st.argument_development h t) := by
  obtain ⟨o, ad, tc⟩ := st
  rcases ad with _ | a' <;> (first | cases ha : a'.isEmpty | skip) <;>
    simp [structFieldStory, structFieldItemsOf, StructuralData.toVal, pyGet, pyTruthy,
      pyStr, *]

set_option maxHeartbeats 1000000 in
theorem structFieldStory_technical (st : StructuralData) (h : String) (t : Bool) :
    structFieldStory st.toVal "technical_compliance" h t =
      .ok (structFieldItemsOf st.technical_compliance h t) := by
  obtain ⟨o, ad, tc⟩ := st
  rcases tc with _ | t' <;> (first | cases ht : t'.isEmpty | skip) <;>
    simp [structFieldStory, structFieldItemsOf, StructuralData.toVal, pyGet, pyTruthy,
      pyStr, *]

set_option maxHeartbeats 1000000 in
theorem structuralStory_toVal (r : ReportData) :
    structuralStory r.toVal = .ok (structuralItemsOf r.structural_analysis) := by
  obtain ⟨a, ru, os, og, su, gj, cd, cr, sb, sa, rr, ra, ai, ts⟩ := r
  rcases sa with _ | st
  · simp [structuralStory, ReportData.toVal, pyGet, pyTruthy, structuralItemsOf]
  · have h1 := structFieldStory_organization st "<b>Organization:</b>" true
    have h2 := structFieldStory_argument st "<b>Argument Development:</b>" true
    have h3 := structFieldStory_technical st "<b>Technical Compliance:</b>" false
    cases h : pyTruthy st.toVal <;>
      simp [structuralStory, ReportData.toVal, pyGet, pyBracket, structuralItemsOf,
        h, h1, h2, h3]

set_option maxHeartbeats 1000000 in
theorem revisionBucketStory_hp (recs : RevisionData) (h : String) (t : Bool) :
    revisionBucketStory recs.toVal "high_priority" h t =
      .ok (revisionBucketItemsOf recs.high_priority h t) := by
  obtain ⟨hp, ci, sc, tf⟩ := recs
  rcases hp with _ | ⟨_ | ⟨x, xs⟩⟩ <;>
    simp [revisionBucketStory, revisionBucketItemsOf, RevisionData.toVal, strListVal,
      pyGet, pyBracket, pyTruthy, pyLenE, pyIter, pyStr, List.map_map, Function.comp]

set_option maxHeartbeats 1000000 in
theorem revisionBucketStory_ci (recs : RevisionData) (h : String) (t : Bool) :
    revisionBucketStory recs.toVal "content_improvements" h t =
      .ok (revisionBucketItemsOf recs.content_improvements h t) := by
  obtain ⟨hp, ci, sc, tf⟩ := recs
  rcases ci with _ | ⟨_ | ⟨x, xs⟩⟩ <;>
    simp [revisionBucketStory, revisionBucketItemsOf, RevisionData.toVal, strListVal,
      pyGet, pyBracket, pyTruthy, pyLenE, pyIter, pyStr, List.map_map, Function.comp]

set_option maxHeartbeats 1000000 in
theorem revisionBucketStory_sc (recs : RevisionData) (h : String) (t : Bool) :
    revisionBucketStory recs.toVal "structural_changes" h t =
      .ok (revisionBucketItemsOf recs.structural_changes h t) := by
  obtain ⟨hp, ci, sc, tf⟩ := recs
  rcases sc with _ | ⟨_ | ⟨x, xs⟩⟩ <;>
    simp [revisionBucketStory, revisionBucketItemsOf, RevisionData.toVal, strListVal,
      pyGet, pyBracket, pyTruthy, pyLenE, pyIter, pyStr, List.map_map, Function.comp]

set_option maxHeartbeats 1000000 in
theorem revisionBucketStory_tf (recs : RevisionData) (h : String) (t : Bool) :
    revisionBucketStory recs.toVal "technical_fixes" h t =
      .ok (revisionBucketItemsOf recs.technical_fixes h t) := by
  obtain ⟨hp, ci, sc, tf⟩ := recs
  rcases tf with _ | ⟨_ | ⟨x, xs⟩⟩ <;>
    simp [revisionBucketStory, revisionBucketItemsOf, RevisionData.toVal, strListVal,
      pyGet, pyBracket, pyTruthy, pyLenE, pyIter, pyStr, List.map_map, Function.comp]

set_option maxHeartbeats 1000000 in
theorem revisionStory_toVal (r : ReportData) :
    revisionStory r.toVal = .ok (revisionItemsOf r.revision_recommendations) := by
  obtain ⟨a, ru, os, og, su, gj, cd, cr, sb, sa, rr, ra, ai, ts⟩ := r
  rcases rr with _ | recs
  · simp [revisionStory, ReportData.toVal, pyGet, pyTruthy, revisionItemsOf]
  · have h1 := revisionBucketStory_hp recs "<b>High Priority (Do First):</b>" true
    have h2 := revisionBucketStory_ci recs "<b>Content Improvements:</b>" true
    have h3 := revisionBucketStory_sc recs "<b>Structural Changes:</b>" true
    have h4 := revisionBucketStory_tf recs "<b>Technical Fixes:</b>" false
    cases h : pyTruthy recs.toVal <;>
      simp [revisionStory, ReportData.toVal, pyGet, pyBracket, revisionItemsOf,
        h, h1, h2, h3, h4]

set_option maxHeartbeats 1000000 in
theorem readinessBody_toVal (rd : ReadinessData) :
    readinessBody rd.toVal = .ok (readinessBodyItemsOf rd) := by
  have hR : pyContains "Ready" "Not Assessed" = false := by decide
  have hM : pyContains "Minor" "Not Assessed" = false := by decide
  obtain ⟨stt, hrs, kb⟩ := rd
  rcases stt with _ | stv <;> rcases hrs with _ | hv <;>
    rcases kb with _ | ⟨_ | ⟨b0, bs⟩⟩ <;>
    (first | by_cases hh : hv = (0 : Int) | skip) <;>
    simp [readinessBody, readinessBodyItemsOf, ReadinessData.toVal, pyGet, pyBracket,
      pyTruthy, pyLenE, pyIter, pyStr, pyContainsE, statusColor, strListVal,
      List.map_map, Function.comp, *]

set_option maxHeartbeats 1000000 in
theorem readinessStory_toVal (r : ReportData) :
    readinessStory r.toVal = .ok (readinessItemsOf r.readiness_assessment) := by
  obtain ⟨a, ru, os, og, su, gj, cd, cr, sb, sa, rr, ra, ai, ts⟩ := r
  rcases ra with _ | rd
  · simp [readinessStory, ReportData.toVal, pyGet, pyTruthy, readinessItemsOf]
  · have hb := readinessBody_toVal rd
    cases h : pyTruthy rd.toVal <;>
      simp [readinessStory, ReportData.toVal, pyGet, pyBracket, readinessItemsOf,
        h, hb]

set_option maxHeartbeats 1000000 in
theorem footerStory_toVal (r : ReportData) (freshId nowFooter : String) :
    footerStory r.toVal freshId nowFooter = .ok [
      .pageBreak,
      .para "Report Notes" .heading,
      .para "This report was generated by RUBRIX AI-Powered Assignment Analysis System." .normal,
      .spacer 1 10,
      .para "For questions or additional support, please contact your instructor or academic advisor." .normal,
      .spacer 1 10,
      .para ("Report ID: " ++ r.analysis_id.getD freshId) .normal,
      .para ("Generated on: " ++ nowFooter) .normal] := by
  obtain ⟨a, ru, os, og, su, gj, cd, cr, sb, sa, rr, ra, ai, ts⟩ := r
  rcases ai with _ | ai' <;> simp [footerStory, ReportData.toVal, pyGet, pyStr]

set_option maxHeartbeats 1000000 in
theorem generate_pdf_report_toVal (r : ReportData) (nowTs freshId nowFooter : String) :
    generate_pdf_report r.toVal nowTs freshId nowFooter =
      .ok (pdfStoryOf r nowTs freshId nowFooter) := by
  rw [generate_pdf_report]
  simp only [titleStory_toVal, summaryStory_toVal, criticalStory_toVal,
    criteriaStory_toVal, strengthsStory_toVal, structuralStory_toVal,
    revisionStory_toVal, readinessStory_toVal, footerStory_toVal, except_bind_ok,
    except_pure]
  simp [pdfStoryOf]


/-! ## Claim support -/

/-- Lookup of a key on a Python value (None on non-dicts). -/
def pyLookup (v : PyVal) (k : String) : Option PyVal :=
  match v with
  | .dict kvs => assocGet k kvs
  | _ => Option.none

/-- Does the story contain a paragraph with exactly this text? -/
def storyHasPara (text : String) (items : List Item) : Bool :=
  items.any fun it =>
    match it with
    | .para t _ => t = text
    | _ => false

/-- Lift of `storyHasPara` to render results; a failed render contains
nothing. -/
def exceptStoryHas (text : String) : Except String (List Item) → Bool
  | .ok items => storyHasPara text items
  | .error _ => false

/-- Did the render succeed? -/
def renderOk : Except String (List Item) → Bool
  | .ok _ => true
  | .error _ => false

/-- Counterexample to claim C4 as stated: the renderer derives "Good", not
"Needs Work", for a criterion scored 72, both as the pure band function and
inside an actual rendered report. -/
theorem c4_band_72_counterexample :
    performanceBand 72 = "Good" ∧
    ¬ performanceBand 72 = "Needs Work" ∧
    exceptStoryHas "Performance Level: Good"
      (generate_pdf_report
        (.dict [("summary", .str "s"),
          ("criteria", .list [.dict [("criterion", .str "X"),
            ("score_percentage", .int 72), ("weight", .int 10)]])])
        "2024-01-01 00:00:00" "abcd1234" "2024-01-01 at 00:00:00") = true ∧
    exceptStoryHas "Performance Level: Needs Work"
      (generate_pdf_report
        (.dict [("summary", .str "s"),
          ("criteria", .list [.dict [("criterion", .str "X"),
            ("score_percentage", .int 72), ("weight", .int 10)]])])
        "2024-01-01 00:00:00" "abcd1234" "2024-01-01 at 00:00:00") = false := by
  refine ⟨by decide, by decide, by decide, by decide⟩

/-- Claim C4 as amended: the derived band is the pure function of
score_percentage with thresholds at least 70 giving "Good" (so 72 and 70
give "Good"), 50 to 69 giving "Needs Work", below 50 giving "Poor"; the
last conjunct anchors the band of a criterion scored 60 inside an actual
rendered report. -/
theorem c4_performance_band :
    performanceBand 72 = "Good" ∧
    performanceBand 49 = "Poor" ∧
    performanceBand 70 = "Good" ∧
    (∀ p : Int,
      (70 ≤ p → performanceBand p = "Good") ∧
      (50 ≤ p → p < 70 → performanceBand p = "Needs Work") ∧
      (p < 50 → performanceBand p = "Poor")) ∧
    exceptStoryHas "Performance Level: Needs Work"
      (generate_pdf_report
        (.dict [("summary", .str "s"),
          ("criteria", .list [.dict [("criterion", .str "X"),
            ("score_percentage", .int 60), ("weight", .int 10)]])])
        "2024-01-01 00:00:00" "abcd1234" "2024-01-01 at 00:00:00") = true := by
  refine ⟨by decide, by decide, by decide, ?_, by decide⟩
  intro p
  refine ⟨fun h => by simp [performanceBand, ge_iff_le, h],
    fun h1 h2 => ?_, fun h => ?_⟩
  · have h3 : ¬ ((70 : Int) ≤ p) := by omega
    simp [performanceBand, ge_iff_le, h1, h3]
  · have h3 : ¬ ((70 : Int) ≤ p) := by omega
    have h4 : ¬ ((50 : Int) ≤ p) := by omega
    simp [performanceBand, ge_iff_le, h3, h4]

/-- Witness for the quantified part of the amended C4: the hypotheses are
satisfiable and give the stated bands at concrete scores. -/
theorem c4_performance_band_witness :
    ((70 : Int) ≤ 85 ∧ performanceBand 85 = "Good") ∧
    ((50 : Int) ≤ 60 ∧ (60 : Int) < 70 ∧ performanceBand 60 = "Needs Work") ∧
    ((30 : Int) < 50 ∧ performanceBand 30 = "Poor") :=
  ⟨⟨by decide, (c4_performance_band.2.2.2.1 85).1 (by decide)⟩,
   ⟨by decide, by decide, (c4_performance_band.2.2.2.1 60).2.1 (by decide) (by decide)⟩,
   ⟨by decide, (c4_performance_band.2.2.2.1 30).2.2 (by decide)⟩⟩

/-- Claim C5: the readiness severity indicator is a pure function of the
status string via substring tests: containing "Ready" selects green,
otherwise containing "Minor" selects orange, anything else red; the last
conjunct anchors the selected color inside an actual rendered report. -/
theorem c5_status_color :
    statusColor "Ready for Submission" = .green ∧
    statusColor "Needs Minor Revisions" = .orange ∧
    (∀ s : String,
      (pyContains "Ready" s = true → statusColor s = .green) ∧
      (pyContains "Ready" s = false → pyContains "Minor" s = true →
        statusColor s = .orange) ∧
      (pyContains "Ready" s = false → pyContains "Minor" s = false →
        statusColor s = .red)) ∧
    exceptStoryHas
      "<b>Status:</b> <font color=\x270x008000\x27>Ready for Submission</font>"
      (generate_pdf_report
        (.dict [("summary", .str "s"),
          ("readiness_assessment", .dict [("status", .str "Ready for Submission")])])
        "2024-01-01 00:00:00" "abcd1234" "2024-01-01 at 00:00:00") = true := by
  refine ⟨by decide, by decide, ?_, by decide⟩
  intro s
  exact ⟨fun h => by simp [statusColor, h],
    fun h1 h2 => by simp [statusColor, h1, h2],
    fun h1 h2 => by simp [statusColor, h1, h2]⟩

/-- Witness for the quantified part of C5 at concrete status strings. -/
theorem c5_status_color_witness :
    (pyContains "Ready" "Almost Ready" = true ∧ statusColor "Almost Ready" = .green) ∧
    (pyContains "Ready" "Minor fixes" = false ∧ pyContains "Minor" "Minor fixes" = true ∧
      statusColor "Minor fixes" = .orange) ∧
    (pyContains "Ready" "Reject" = false ∧ pyContains "Minor" "Reject" = false ∧
      statusColor "Reject" = .red) :=
  ⟨⟨by decide, (c5_status_color.2.2.1 "Almost Ready").1 (by decide)⟩,
   ⟨by decide, by decide,
     (c5_status_color.2.2.1 "Minor fixes").2.1 (by decide) (by decide)⟩,
   ⟨by decide, by decide,
     (c5_status_color.2.2.1 "Reject").2.2 (by decide) (by decide)⟩⟩

/-- Claim C7: the prompt embeds exactly the first 4000 characters of the
rubric and the first 6000 characters of the assignment between the fixed
instruction blocks: the embedded fragments are bounded prefixes of the
inputs. -/
theorem c7_prompt_truncation (assignment_text rubric_text : String) :
    (buildPrompt assignment_text rubric_text).data =
      promptPre.data ++ rubric_text.data.take 4000 ++ promptMid.data ++
        assignment_text.data.take 6000 ++ promptSuf.data ∧
    (rubric_text.data.take 4000).length ≤ 4000 ∧
    (assignment_text.data.take 6000).length ≤ 6000 ∧
    rubric_text.data.take 4000 <+: rubric_text.data ∧
    assignment_text.data.take 6000 <+: assignment_text.data := by
  refine ⟨?_, ?_, ?_, List.take_prefix _ _, List.take_prefix _ _⟩
  · simp [buildPrompt, pyTake]
  · simpa using List.length_take_le 4000 rubric_text.data
  · simpa using List.length_take_le 6000 assignment_text.data

/-- Claim C9: on a report with any subset of the optional fields absent the
renderer succeeds (never raises on a missing key), and a missing list or
record field renders identically to its present-but-empty form (and a
missing grade justification identically to an empty string). -/
theorem c9_missing_fields_safe (r : ReportData) (nowTs freshId nowFooter : String) :
    renderOk (generate_pdf_report r.toVal nowTs freshId nowFooter) = true ∧
    generate_pdf_report ({r with criteria := Option.none}).toVal nowTs freshId nowFooter =
      generate_pdf_report ({r with criteria := some []}).toVal nowTs freshId nowFooter ∧
    generate_pdf_report ({r with critical_deficiencies := Option.none}).toVal nowTs
        freshId nowFooter =
      generate_pdf_report ({r with critical_deficiencies := some []}).toVal nowTs
        freshId nowFooter ∧
    generate_pdf_report ({r with strengths_to_build := Option.none}).toVal nowTs
        freshId nowFooter =
      generate_pdf_report ({r with strengths_to_build := some []}).toVal nowTs
        freshId nowFooter ∧
    generate_pdf_report ({r with structural_analysis := Option.none}).toVal nowTs
        freshId nowFooter =
      generate_pdf_report ({r with structural_analysis := some (StructuralData.mk Option.none Option.none Option.none)}).toVal nowTs freshId nowFooter ∧
    generate_pdf_report ({r with revision_recommendations := Option.none}).toVal nowTs
        freshId nowFooter =
      generate_pdf_report ({r with revision_recommendations := some (RevisionData.mk Option.none Option.none Option.none Option.none)}).toVal nowTs freshId nowFooter ∧
    generate_pdf_report ({r with readiness_assessment := Option.none}).toVal nowTs
        freshId nowFooter =
      generate_pdf_report ({r with readiness_assessment := some (ReadinessData.mk Option.none Option.none Option.none)}).toVal nowTs freshId nowFooter ∧
    generate_pdf_report ({r with grade_justification := Option.none}).toVal nowTs
        freshId nowFooter =
      generate_pdf_report ({r with grade_justification := some ""}).toVal nowTs
        freshId nowFooter := by
  refine ⟨?_, ?_, ?_, ?_, ?_, ?_, ?_, ?_⟩ <;>
    simp only [generate_pdf_report_toVal, renderOk] <;>
    simp [pdfStoryOf, criteriaItemsOf, criticalItemsOf, strengthsItemsOf,
      structuralItemsOf, revisionItemsOf, readinessItemsOf, ReadinessData.toVal,
      StructuralData.toVal, RevisionData.toVal, pyTruthy] <;> rfl


/-- Claim C1: whatever the inputs, when the provider call raises (transport
error, non-2xx status via raise_for_status, or timeout) the Evaluation
Client returns the serialization of the fixed hardcoded fallback verdict;
that string JSON-decodes back to the fallback verdict, which matches the
Report shape of the data model and carries the simulated-analysis note. -/
theorem c1_provider_failure_fallback (assignment_text rubric_text : String)
    (d w g : Bool) (e : String) :
    analyze_with_openrouter assignment_text rubric_text d w g (.error e) =
      json_dumps_str fallbackVerdict ∧
    json_loads (json_dumps_str fallbackVerdict) = some fallbackVerdict ∧
    reportShapedSpec fallbackVerdict = true ∧
    pyLookup fallbackVerdict "note" =
      some (.str "Using simulated analysis (OpenRouter unavailable)") := by
  refine ⟨rfl, loads_of_loadsBackEq (by decide!), by decide, rfl⟩

/-- Counterexample to claim C2 as stated: in the JSON-request branch an
unparseable verdict ("\x7b") yields an explicit error payload carrying the
full raw text, not a degraded Report with a synthetic criterion. -/
theorem c2_json_branch_counterexample :
    upload_files (.jsonReq "a" "r" true true true) (.ok "\x7b") =
      (.jsonError "Failed to parse AI response" (some "\x7b"), true) := by
  rfl

/-- Claim C2 as amended: in the file-upload branch, whenever the cleaned
verdict fails to JSON-decode, the handler never propagates an exception and
renders the degraded report: exactly one synthetic criterion named
"Content" with placeholder score 70 and weight 30, the fixed non-empty
summary noting the parsing limitation, and the first 500 characters of the
raw text under raw_response; the JSON-request branch instead returns an
error payload with the full raw text. -/
theorem c2_degraded_report (fa fr ac rc : String) (d w g : Bool)
    (p : ProviderOutcome)
    (hfa : ¬ fa = "") (hfr : ¬ fr = "")
    (hparse : json_loads (analyze_with_openrouter ac rc d w g p) = Option.none) :
    upload_files (.fileReq fa fr ac rc d w g) p =
      (.htmlResult (degradedReport (analyze_with_openrouter ac rc d w g p)) fa fr,
        true) ∧
    (∀ raw : String,
      pyLookup (degradedReport raw) "criteria_breakdown" =
        some (.list [.dict [
          ("criterion", .str "Content"),
          ("score_percentage", .int 70),
          ("weight", .int 30),
          ("strengths", .list [.str "Basic content covered"]),
          ("deficiencies", .list [.str "Analysis needed"]),
          ("recommendations", .list [.str "Improve depth"]),
          ("needs_improvement", .bool true)]]) ∧
      pyLookup (degradedReport raw) "summary" =
        some (.str "Analysis completed but with parsing limitations.") ∧
      pyLookup (degradedReport raw) "raw_response" = some (.str (pyTake 500 raw))) ∧
    ¬ "Analysis completed but with parsing limitations." = "" ∧
    (∀ a r : String, ¬ a = "" → ¬ r = "" →
      json_loads (analyze_with_openrouter a r d w g p) = Option.none →
      upload_files (.jsonReq a r d w g) p =
        (.jsonError "Failed to parse AI response"
          (some (analyze_with_openrouter a r d w g p)), true)) := by
  refine ⟨?_, fun raw => ⟨rfl, rfl, rfl⟩, by decide, fun a r ha hr hp => ?_⟩
  · have hfa' : fa.isEmpty = false := by
      cases hfe : fa.isEmpty
      · rfl
      · exact absurd ((String.isEmpty_iff fa).mp hfe) hfa
    have hfr' : fr.isEmpty = false := by
      cases hfe : fr.isEmpty
      · rfl
      · exact absurd ((String.isEmpty_iff fr).mp hfe) hfr
    simp [upload_files, hfa', hfr', hparse]
  · have ha' : a.isEmpty = false := by
      cases hfe : a.isEmpty
      · rfl
      · exact absurd ((String.isEmpty_iff a).mp hfe) ha
    have hr' : r.isEmpty = false := by
      cases hfe : r.isEmpty
      · rfl
      · exact absurd ((String.isEmpty_iff r).mp hfe) hr
    simp [upload_files, ha', hr', hp]

/-- Witness for the amended C2 at concrete inputs: an upload of nonempty
files whose provider reply "x" is not JSON renders the degraded report. -/
theorem c2_degraded_report_witness :
    (¬ "a.txt" = "") ∧ (¬ "r.txt" = "") ∧
    json_loads (analyze_with_openrouter "x" "y" true true true (.ok "x")) =
      Option.none ∧
    upload_files (.fileReq "a.txt" "r.txt" "x" "y" true true true) (.ok "x") =
      (.htmlResult (degradedReport (analyze_with_openrouter "x" "y" true true true
        (.ok "x"))) "a.txt" "r.txt", true) :=
  ⟨by decide, by decide, rfl,
    (c2_degraded_report "a.txt" "r.txt" "x" "y" true true true (.ok "x")
      (by decide) (by decide) rfl).1⟩

/-- Counterexample to claim C6 as stated: a report whose summary key is
present but empty renders the Executive Summary section with the empty
text, not the fallback string (which, in the source, is
"No summary available." with a final period). -/
theorem c6_empty_summary_counterexample :
    renderOk (generate_pdf_report (.dict [("summary", .str "")])
      "2024-01-01 00:00:00" "abcd1234" "2024-01-01 at 00:00:00") = true ∧
    exceptStoryHas "Executive Summary" (generate_pdf_report
      (.dict [("summary", .str "")])
      "2024-01-01 00:00:00" "abcd1234" "2024-01-01 at 00:00:00") = true ∧
    exceptStoryHas "No summary available." (generate_pdf_report
      (.dict [("summary", .str "")])
      "2024-01-01 00:00:00" "abcd1234" "2024-01-01 at 00:00:00") = false ∧
    exceptStoryHas "No summary available" (generate_pdf_report
      (.dict [("summary", .str "")])
      "2024-01-01 00:00:00" "abcd1234" "2024-01-01 at 00:00:00") = false ∧
    exceptStoryHas "" (generate_pdf_report (.dict [("summary", .str "")])
      "2024-01-01 00:00:00" "abcd1234" "2024-01-01 at 00:00:00") = true := by
  refine ⟨by decide, by decide, by decide, by decide, by decide⟩

/-- Claim C6 as amended: the rendered document always contains the
Executive Summary section; when the summary key is missing the fixed
fallback text "No summary available." is shown, and when it is present
(even empty) its own text is shown. -/
theorem c6_summary_fallback (r : ReportData) (nowTs freshId nowFooter : String) :
    exceptStoryHas "Executive Summary"
      (generate_pdf_report r.toVal nowTs freshId nowFooter) = true ∧
    (r.summary = Option.none →
      exceptStoryHas "No summary available."
        (generate_pdf_report r.toVal nowTs freshId nowFooter) = true) ∧
    (∀ s : String, r.summary = some s →
      exceptStoryHas s (generate_pdf_report r.toVal nowTs freshId nowFooter) = true) := by
  refine ⟨?_, fun h => ?_, fun s h => ?_⟩ <;>
    rw [generate_pdf_report_toVal] <;>
    simp [exceptStoryHas, storyHasPara, pdfStoryOf, *]

/-- Witness for the amended C6: a report with no summary key shows the
fallback string, one with an explicit summary shows that summary. -/
theorem c6_summary_fallback_witness :
    ((ReportData.mk Option.none Option.none Option.none Option.none Option.none
        Option.none Option.none Option.none Option.none Option.none Option.none
        Option.none Option.none Option.none).summary = Option.none ∧
      exceptStoryHas "No summary available."
        (generate_pdf_report (ReportData.mk Option.none Option.none Option.none
          Option.none Option.none Option.none Option.none Option.none Option.none
          Option.none Option.none Option.none Option.none Option.none).toVal
          "t" "i" "t2") = true) ∧
    ((ReportData.mk Option.none Option.none Option.none Option.none (some "Good work")
        Option.none Option.none Option.none Option.none Option.none Option.none
        Option.none Option.none Option.none).summary = some "Good work" ∧
      exceptStoryHas "Good work"
        (generate_pdf_report (ReportData.mk Option.none Option.none Option.none
          Option.none (some "Good work") Option.none Option.none Option.none
          Option.none Option.none Option.none Option.none Option.none
          Option.none).toVal "t" "i" "t2") = true) :=
  ⟨⟨rfl, (c6_summary_fallback _ "t" "i" "t2").2.1 rfl⟩,
   ⟨rfl, (c6_summary_fallback _ "t" "i" "t2").2.2 "Good work" rfl⟩⟩

/-- Counterexample to claim C8 as stated: a file-upload request with
nonempty filenames but an empty assignment text is not rejected — the
provider is called and a normal result page is produced. -/
theorem c8_file_branch_counterexample :
    upload_files (.fileReq "a.txt" "r.txt" "" "rubric text" true true true)
        (.ok "x") =
      (.htmlResult (degradedReport "x") "a.txt" "r.txt", true) := by
  rfl

/-- Claim C8 as amended: in the JSON-request branch an empty assignment or
rubric text is rejected before any provider call with the fixed validation
error (no raw payload), and in the file-upload branch only empty filenames
are rejected before any provider call; the validation error is distinct
from the parse-failure error. -/
theorem c8_empty_input_validation :
    (∀ (a r : String) (d w g : Bool) (p : ProviderOutcome),
      a = "" ∨ r = "" →
      upload_files (.jsonReq a r d w g) p =
        (.jsonError "Both assignment and rubric text are required" Option.none,
          false)) ∧
    (∀ (fa fr ac rc : String) (d w g : Bool) (p : ProviderOutcome),
      fa = "" ∨ fr = "" →
      upload_files (.fileReq fa fr ac rc d w g) p =
        (.htmlError "No files selected", false)) ∧
    ¬ ("Both assignment and rubric text are required" =
        "Failed to parse AI response") := by
  refine ⟨fun a r d w g p h => ?_, fun fa fr ac rc d w g p h => ?_, by decide⟩
  · rcases h with h | h <;> subst h <;> simp [upload_files, String.isEmpty_iff]
  · rcases h with h | h <;> subst h <;> simp [upload_files, String.isEmpty_iff]

/-- Witness for the amended C8: an empty rubric text in a JSON request is
rejected without a provider call. -/
theorem c8_empty_input_validation_witness :
    ("" = "" ∨ "r" = "") ∧
    upload_files (.jsonReq "" "r" true true true) (.error "down") =
      (.jsonError "Both assignment and rubric text are required" Option.none,
        false) :=
  ⟨Or.inl rfl,
    c8_empty_input_validation.1 "" "r" true true true (.error "down") (Or.inl rfl)⟩

/-- Claim C10: both the hardcoded fallback verdict and the degraded report
store their per-criterion data under criteria_breakdown while the renderer
reads only criteria, so the rendered document omits the Detailed Criteria
Analysis section even though criterion data is present. -/
theorem c10_criteria_breakdown_unrendered :
    pyLookup fallbackVerdict "criteria" = Option.none ∧
    (match pyLookup fallbackVerdict "criteria_breakdown" with
     | some (.list xs) => !xs.isEmpty
     | _ => false) = true ∧
    renderOk (generate_pdf_report fallbackVerdict
      "2024-01-01 00:00:00" "abcd1234" "2024-01-01 at 00:00:00") = true ∧
    exceptStoryHas "Detailed Criteria Analysis"
      (generate_pdf_report fallbackVerdict
        "2024-01-01 00:00:00" "abcd1234" "2024-01-01 at 00:00:00") = false ∧
    (∀ raw : String,
      pyLookup (degradedReport raw) "criteria" = Option.none ∧
      (match pyLookup (degradedReport raw) "criteria_breakdown" with
       | some (.list xs) => !xs.isEmpty
       | _ => false) = true ∧
      renderOk (generate_pdf_report (degradedReport raw)
        "2024-01-01 00:00:00" "abcd1234" "2024-01-01 at 00:00:00") = true ∧
      exceptStoryHas "Detailed Criteria Analysis"
        (generate_pdf_report (degradedReport raw)
          "2024-01-01 00:00:00" "abcd1234" "2024-01-01 at 00:00:00") = false) := by
  refine ⟨rfl, rfl, by decide!, by decide!, fun raw => ⟨rfl, rfl, rfl, rfl⟩⟩


/-! ### Fence-stripping lemmas (claim C3) -/

/-- Backtick character, used in the fence lemmas below. -/
def btick : Char := '\x60'

/-- List-level form of `cleanResponse`. -/
def listClean (l : List Char) : List Char :=
  let r := stripL l
  if listIsPre "```json".data r then stripL ((r.drop 7).take (r.length - 3 - 7))
  else if listIsPre "```".data r then stripL ((r.drop 3).take (r.length - 3 - 3))
  else r

theorem cleanResponse_data (s : String) : cleanResponse s = ⟨listClean s.data⟩ := by
  cases h1 : listIsPre "```json".data (stripL s.data) <;>
    cases h2 : listIsPre "```".data (stripL s.data) <;>
    simp [cleanResponse, listClean, pyStrip, pyStartsWith, pySliceDrop, h1, h2]

theorem lstripL_cons_of_space {c : Char} (h : pyIsSpace c = true) (l : List Char) :
    lstripL (c :: l) = lstripL l := by
  simp [lstripL, List.dropWhile_cons, h]

theorem lstripL_cons_of_nospace {c : Char} (h : pyIsSpace c = false) (l : List Char) :
    lstripL (c :: l) = c :: l := by
  simp [lstripL, List.dropWhile_cons, h]

theorem rstripL_append_of_space {c : Char} (h : pyIsSpace c = true) (l : List Char) :
    rstripL (l ++ [c]) = rstripL l := by
  simp [rstripL, List.dropWhile_cons, h]

theorem rstripL_append_of_nospace {c : Char} (h : pyIsSpace c = false) (l : List Char) :
    rstripL (l ++ [c]) = l ++ [c] := by
  simp [rstripL, List.dropWhile_cons, h]

theorem lstripL_append (l m : List Char) :
    lstripL (l ++ m) = if (lstripL l).isEmpty then lstripL m else lstripL l ++ m := by
  induction l with
  | nil => simp [lstripL]
  | cons a l ih =>
    cases ha : pyIsSpace a with
    | true => simp [lstripL_cons_of_space ha, ih]
    | false => simp [lstripL_cons_of_nospace ha]

theorem stripL_solid {c d : Char} (hc : pyIsSpace c = false) (hd : pyIsSpace d = false)
    (l : List Char) : stripL (c :: (l ++ [d])) = c :: (l ++ [d]) := by
  have h1 : lstripL (c :: (l ++ [d])) = c :: (l ++ [d]) := lstripL_cons_of_nospace hc _
  have h2 : rstripL (c :: (l ++ [d])) = c :: (l ++ [d]) := by
    have : c :: (l ++ [d]) = (c :: l) ++ [d] := by simp
    rw [this, rstripL_append_of_nospace hd]
  simp [stripL, h1, h2]

theorem stripL_wrap (x : List Char) : stripL ('\n' :: (x ++ ['\n'])) = stripL x := by
  have hsp : pyIsSpace '\n' = true := by decide
  unfold stripL
  rw [lstripL_cons_of_space hsp, lstripL_append]
  cases he : (lstripL x).isEmpty with
  | true =>
    have hx : lstripL x = [] := List.isEmpty_iff.mp he
    have h1 : lstripL ['\n'] = ([] : List Char) := by decide
    simp only [he, if_true]
    rw [hx, h1]
  | false =>
    simp only [he, if_false, Bool.false_eq_true]
    rw [rstripL_append_of_space hsp]

theorem listIsPre_of_append (a b l : List Char)
    (h : listIsPre (a ++ b) l = true) : listIsPre a l = true := by
  induction a generalizing l with
  | nil => rfl
  | cons c a ih =>
    cases l with
    | nil => simp [listIsPre, btick] at h
    | cons d l' =>
      simp only [List.cons_append, listIsPre, Bool.and_eq_true] at h ⊢
      exact ⟨h.1, ih l' h.2⟩

theorem listClean_json_fence (x : List Char) :
    listClean ("```json\n".data ++ (x ++ "\n```".data)) = stripL x := by
  have hp : "```json\n".data = btick :: btick :: btick :: 'j' :: 's' :: 'o' :: 'n' :: '\n' :: [] := rfl
  have hq : "\n```".data = '\n' :: btick :: btick :: btick :: [] := rfl
  rw [hp, hq]
  have hshape : (btick :: btick :: btick :: 'j' :: 's' :: 'o' :: 'n' :: '\n' :: [] : List Char) ++
      (x ++ '\n' :: btick :: btick :: btick :: []) =
      btick :: ((btick :: btick :: 'j' :: 's' :: 'o' :: 'n' :: '\n' :: x ++ ['\n', btick, btick]) ++ [btick]) := by
    simp
  rw [hshape]
  have hstr := stripL_solid (c := btick) (d := btick) (by decide) (by decide)
    (btick :: btick :: 'j' :: 's' :: 'o' :: 'n' :: '\n' :: x ++ ['\n', btick, btick])
  unfold listClean
  rw [hstr]
  have hpre : listIsPre "```json".data
      (btick :: (btick :: btick :: 'j' :: 's' :: 'o' :: 'n' :: '\n' :: x ++ ['\n', btick, btick] ++ [btick])) = true := by
    simp [listIsPre, btick]
  rw [if_pos hpre]
  have hlen : (btick :: (btick :: btick :: 'j' :: 's' :: 'o' :: 'n' :: '\n' :: x ++ ['\n', btick, btick] ++ [btick])).length
      - 3 - 7 = x.length + 2 := by
    simp
  rw [hlen]
  have hdrop : (btick :: (btick :: btick :: 'j' :: 's' :: 'o' :: 'n' :: '\n' :: x ++ ['\n', btick, btick] ++ [btick])).drop 7
      = '\n' :: (x ++ ['\n', btick, btick, btick]) := by
    simp [List.drop]
  rw [hdrop]
  have htake : ('\n' :: (x ++ ['\n', btick, btick, btick])).take (x.length + 2) =
      '\n' :: (x ++ ['\n']) := by
    rw [List.take_succ_cons, List.take_append_eq_append_take,
      List.take_of_length_le (Nat.le_succ _), Nat.add_sub_cancel_left]
    rfl
  rw [htake, stripL_wrap]

theorem listClean_plain_fence (x : List Char) :
    listClean ("```\n".data ++ (x ++ "\n```".data)) = stripL x := by
  have hp : "```\n".data = btick :: btick :: btick :: '\n' :: [] := rfl
  have hq : "\n```".data = '\n' :: btick :: btick :: btick :: [] := rfl
  rw [hp, hq]
  have hshape : (btick :: btick :: btick :: '\n' :: [] : List Char) ++
      (x ++ '\n' :: btick :: btick :: btick :: []) =
      btick :: ((btick :: btick :: '\n' :: x ++ ['\n', btick, btick]) ++ [btick]) := by
    simp
  rw [hshape]
  have hstr := stripL_solid (c := btick) (d := btick) (by decide) (by decide)
    (btick :: btick :: '\n' :: x ++ ['\n', btick, btick])
  unfold listClean
  rw [hstr]
  rw [if_neg (by simp [listIsPre, btick]), if_pos (by simp [listIsPre, btick])]
  have hlen : (btick :: (btick :: btick :: '\n' :: x ++ ['\n', btick, btick] ++ [btick])).length
      - 3 - 3 = x.length + 2 := by
    simp
  rw [hlen]
  have hdrop : (btick :: (btick :: btick :: '\n' :: x ++ ['\n', btick, btick] ++ [btick])).drop 3
      = '\n' :: (x ++ ['\n', btick, btick, btick]) := by
    simp [List.drop]
  rw [hdrop]
  have htake : ('\n' :: (x ++ ['\n', btick, btick, btick])).take (x.length + 2) =
      '\n' :: (x ++ ['\n']) := by
    rw [List.take_succ_cons, List.take_append_eq_append_take,
      List.take_of_length_le (Nat.le_succ _), Nat.add_sub_cancel_left]
    rfl
  rw [htake, stripL_wrap]


theorem lstripL_shape (l : List Char) :
    lstripL l = [] ∨ ∃ c cs, lstripL l = c :: cs ∧ pyIsSpace c = false := by
  induction l with
  | nil => left; rfl
  | cons a l ih =>
    cases ha : pyIsSpace a with
    | true => rw [lstripL_cons_of_space ha]; exact ih
    | false => right; exact ⟨a, l, lstripL_cons_of_nospace ha _, ha⟩

theorem lstripL_idem (l : List Char) : lstripL (lstripL l) = lstripL l := by
  rcases lstripL_shape l with h | ⟨c, cs, h, hc⟩ <;> rw [h]
  · rfl
  · exact lstripL_cons_of_nospace hc _

theorem rstripL_idem (l : List Char) : rstripL (rstripL l) = rstripL l := by
  unfold rstripL
  rw [List.reverse_reverse]
  exact congrArg List.reverse (lstripL_idem l.reverse)

theorem lstripL_rstripL_lstripL (l : List Char) :
    lstripL (rstripL (lstripL l)) = rstripL (lstripL l) := by
  rcases lstripL_shape l with h | ⟨c, cs, h, hc⟩ <;> rw [h]
  · rfl
  · have h2 : rstripL (c :: cs) = List.reverse (lstripL (cs.reverse ++ [c])) := by
      unfold rstripL lstripL
      rw [List.reverse_cons]
    rw [h2, lstripL_append]
    cases he : (lstripL cs.reverse).isEmpty with
    | true =>
      simp only [he, if_true]
      rw [lstripL_cons_of_nospace hc]
      simp [lstripL_cons_of_nospace hc]
    | false =>
      simp only [he, if_false, Bool.false_eq_true]
      rw [List.reverse_append]
      simp only [List.reverse_cons, List.reverse_nil, List.nil_append,
        List.singleton_append]
      rw [lstripL_cons_of_nospace hc]

theorem stripL_idem (l : List Char) : stripL (stripL l) = stripL l := by
  unfold stripL
  rw [lstripL_rstripL_lstripL, rstripL_idem]

theorem listClean_stripped (l : List Char) : stripL (listClean l) = listClean l := by
  unfold listClean
  cases h1 : listIsPre "```json".data (stripL l) <;>
    cases h2 : listIsPre "```".data (stripL l) <;>
    simp [h1, h2, stripL_idem]

theorem listClean_nofence (l : List Char)
    (h : listIsPre "```".data (stripL l) = false) : listClean l = stripL l := by
  have hj : listIsPre "```json".data (stripL l) = false := by
    cases hc : listIsPre "```json".data (stripL l)
    · rfl
    · have hsplit : ("```json".data : List Char) = "```".data ++ "json".data := rfl
      rw [hsplit] at hc
      have h3 := listIsPre_of_append _ _ _ hc
      rw [h] at h3
      exact absurd h3 (by simp)
  simp [listClean, hj, h]

theorem listClean_idem (l : List Char)
    (h : listIsPre "```".data (listClean l) = false) :
    listClean (listClean l) = listClean l := by
  have hs := listClean_stripped l
  calc listClean (listClean l) = stripL (listClean l) :=
        listClean_nofence _ (by rw [hs]; exact h)
    _ = listClean l := hs

/-- Counterexample to claim C3 as stated: cleaning is not idempotent — when
the cleaned output itself begins with a fence, a second cleaning strips
again (and such an output also shows the no-fence case cannot cover every
string). -/
theorem c3_not_idempotent_counterexample :
    ¬ cleanResponse (cleanResponse "```\n``````\n```") =
        cleanResponse "```\n``````\n```" ∧
    cleanResponse "```\n``````\n```" = "``````" ∧
    cleanResponse "``````" = "" ∧
    ¬ cleanResponse "``````" = pyStrip "``````" := by
  refine ⟨by decide, by decide, by decide, by decide⟩

/-- Claim C3 as amended: cleaning a reply wrapped in a json-tagged fence or
a plain fence yields exactly the stripped payload for every payload X;
cleaning passes a reply through to its stripped form whenever the stripped
reply does not itself start with a fence; and cleaning is idempotent on
every input whose cleaned output does not start with a fence (without that
proviso idempotence fails, as the counterexample shows). -/
theorem c3_fence_stripping :
    (∀ X : String, cleanResponse ("```json\n" ++ X ++ "\n```") = pyStrip X) ∧
    (∀ X : String, cleanResponse ("```\n" ++ X ++ "\n```") = pyStrip X) ∧
    (∀ X : String, pyStartsWith "```" (pyStrip X) = false →
      cleanResponse X = pyStrip X) ∧
    (∀ s : String, pyStartsWith "```" (cleanResponse s) = false →
      cleanResponse (cleanResponse s) = cleanResponse s) := by
  refine ⟨fun X => ?_, fun X => ?_, fun X h => ?_, fun s h => ?_⟩
  · rw [cleanResponse_data]
    have hd : ("```json\n" ++ X ++ "\n```").data =
        "```json\n".data ++ (X.data ++ "\n```".data) := by
      simp
    rw [hd, listClean_json_fence]
    rfl
  · rw [cleanResponse_data]
    have hd : ("```\n" ++ X ++ "\n```").data =
        "```\n".data ++ (X.data ++ "\n```".data) := by
      simp
    rw [hd, listClean_plain_fence]
    rfl
  · rw [cleanResponse_data]
    exact congrArg String.mk (listClean_nofence _ h)
  · rw [cleanResponse_data, cleanResponse_data]
    have h' : listIsPre "```".data (listClean s.data) = false := by
      rw [cleanResponse_data] at h
      exact h
    exact congrArg String.mk (listClean_idem _ h')

/-- Witness for the amended C3 at concrete inputs: each guarded conjunct is
applied at a fence-free string. -/
theorem c3_fence_stripping_witness :
    cleanResponse "```json\nhello\n```" = pyStrip "hello" ∧
    cleanResponse "```\nhello\n```" = pyStrip "hello" ∧
    (pyStartsWith "```" (pyStrip " hello ") = false ∧
      cleanResponse " hello " = pyStrip " hello ") ∧
    (pyStartsWith "```" (cleanResponse "```json\nok\n```") = false ∧
      cleanResponse (cleanResponse "```json\nok\n```") =
        cleanResponse "```json\nok\n```") :=
  ⟨c3_fence_stripping.1 "hello",
   c3_fence_stripping.2.1 "hello",
   ⟨by decide, c3_fence_stripping.2.2.1 " hello " (by decide)⟩,
   ⟨by decide, c3_fence_stripping.2.2.2 "```json\nok\n```" (by decide)⟩⟩

end Rubrix
